import Mathlib

/-!
Verification of the melly validation scripts
(`src/plugins/melly-validation/scripts/validate-init.py`,
`validate-c1-systems.py`, `validate-c2-containers.py`,
`validate-c3-components.py`).

The scripts are shallowly embedded: JSON values become the inductive `Json`,
the filesystem state of a file becomes `FileState`, standard input becomes
`Input`, and each Python function becomes a Lean function of the same name
(namespaces `C1V`, `C2V`, `C3V`, `InitV` hold the four scripts).  Findings are
modelled as one inductive per script with one constructor per
`errors.append` / `warnings.append` site, carrying the data the message
interpolates.

Modelled envelope: the embedding covers inputs on which the Python scripts run
to completion.  Inputs that make Python raise an uncaught `TypeError` or
`AttributeError` (for example a non-dict top-level document, a truthy
non-iterable entity collection, or a non-string entity id fed to the regex)
kill the interpreter with a traceback and are outside the model; at each such
place the embedding totalises the function and a comment marks the spot.
JSON objects are assumed to have distinct keys, as `json.load` produces.
Python sets are modelled as lists keeping first occurrences: membership agrees
exactly; iteration order (hash-randomised in Python) is fixed to insertion
order.  Calls to `datetime.fromisoformat(s.replace('Z', '+00:00'))` are
abstracted by a parameter `parseTs : String → Option Int` (`none` models a
`ValueError`); timestamp comparison becomes the linear order on `Int`, which
matches the total order on mutually comparable `datetime` values.
-/

/-- A JSON value as produced by Python's `json.load`.  Numbers are modelled as
integers; no claim involves fractional numbers. -/
inductive Json where
  | null : Json
  | bool : Bool → Json
  | num : Int → Json
  | str : String → Json
  | arr : List Json → Json
  | obj : List (String × Json) → Json

/-- Structural equality of JSON values, modelling Python `==` on values
decoded by `json.load`. -/
def Json.beq : Json → Json → Bool
  | .null, .null => true
  | .bool a, .bool b => a == b
  | .num a, .num b => a == b
  | .str a, .str b => a == b
  | .arr a, .arr b => goList a b
  | .obj a, .obj b => goObj a b
  | _, _ => false
where
  goList : List Json → List Json → Bool
    | [], [] => true
    | x :: xs, y :: ys => Json.beq x y && goList xs ys
    | _, _ => false
  goObj : List (String × Json) → List (String × Json) → Bool
    | [], [] => true
    | (k, v) :: xs, (k', v') :: ys => k == k' && Json.beq v v' && goObj xs ys
    | _, _ => false

theorem Json.beq_iff : ∀ a b : Json, Json.beq a b = true ↔ a = b
  | .null, .null => by simp [Json.beq]
  | .bool _, .bool _ => by simp [Json.beq]
  | .num _, .num _ => by simp [Json.beq]
  | .str _, .str _ => by simp [Json.beq]
  | .arr a, .arr b => by
      simp only [Json.beq, Json.arr.injEq]
      exact goList_iff a b
  | .obj a, .obj b => by
      simp only [Json.beq, Json.obj.injEq]
      exact goObj_iff a b
  | .null, .bool _ | .null, .num _ | .null, .str _ | .null, .arr _ | .null, .obj _
  | .bool _, .null | .bool _, .num _ | .bool _, .str _ | .bool _, .arr _ | .bool _, .obj _
  | .num _, .null | .num _, .bool _ | .num _, .str _ | .num _, .arr _ | .num _, .obj _
  | .str _, .null | .str _, .bool _ | .str _, .num _ | .str _, .arr _ | .str _, .obj _
  | .arr _, .null | .arr _, .bool _ | .arr _, .num _ | .arr _, .str _ | .arr _, .obj _
  | .obj _, .null | .obj _, .bool _ | .obj _, .num _ | .obj _, .str _ | .obj _, .arr _ => by
      simp [Json.beq]
where
  goList_iff : ∀ xs ys : List Json, Json.beq.goList xs ys = true ↔ xs = ys
    | [], [] => by simp [Json.beq.goList]
    | x :: xs, y :: ys => by
        simp only [Json.beq.goList, Bool.and_eq_true, List.cons.injEq]
        exact and_congr (Json.beq_iff x y) (goList_iff xs ys)
    | [], _ :: _ => by simp [Json.beq.goList]
    | _ :: _, [] => by simp [Json.beq.goList]
  goObj_iff : ∀ xs ys : List (String × Json), Json.beq.goObj xs ys = true ↔ xs = ys
    | [], [] => by simp [Json.beq.goObj]
    | (k, v) :: xs, (k', v') :: ys => by
        simp only [Json.beq.goObj, Bool.and_eq_true, List.cons.injEq, Prod.mk.injEq]
        exact and_congr (and_congr (by simp) (Json.beq_iff v v')) (goObj_iff xs ys)
    | [], _ :: _ => by simp [Json.beq.goObj]
    | _ :: _, [] => by simp [Json.beq.goObj]

instance : DecidableEq Json := fun a b => decidable_of_iff _ (Json.beq_iff a b)

/-- Python truthiness of a JSON value (`if not x` / `if x`). -/
def Json.truthy : Json → Bool
  | .null => false
  | .bool b => b
  | .num n => n != 0
  | .str s => !s.isEmpty
  | .arr xs => !xs.isEmpty
  | .obj kvs => !kvs.isEmpty

/-- Lookup `d[k]` / `d.get(k)` on a dict; `none` when the key is absent.
On a non-dict value Python raises instead (outside the modelled envelope). -/
def Json.get? : Json → String → Option Json
  | .obj kvs, k => kvs.lookup k
  | _, _ => none

/-- Membership test `k in d` on a dict. -/
def Json.hasKey (j : Json) (k : String) : Bool := (j.get? k).isSome

/-- Lookup with default, `d.get(k, default)`. -/
def Json.getD (j : Json) (k : String) (d : Json) : Json := (j.get? k).getD d

/-- Test `isinstance(x, dict)`. -/
def Json.isObj : Json → Bool
  | .obj _ => true
  | _ => false

/-- Test `isinstance(x, list)`. -/
def Json.isArr : Json → Bool
  | .arr _ => true
  | _ => false

/-- Python iteration over a collection: a list yields its elements, a string
its characters, a dict its keys.  Iterating any other value raises `TypeError`
in Python (outside the modelled envelope; the model yields `[]`). -/
def Json.pyElems : Json → List Json
  | .arr xs => xs
  | .str s => s.toList.map (fun c => .str (String.mk [c]))
  | .obj kvs => kvs.map (fun kv => .str kv.1)
  | _ => []

/-- Length `len(x)` for sized values; `none` where Python raises `TypeError`
(outside the modelled envelope). -/
def Json.pyLen : Json → Option Nat
  | .str s => some s.length
  | .arr xs => some xs.length
  | .obj kvs => some kvs.length
  | _ => none

/-- Truthiness of `d.get(k)`: `None` (absent key) is falsy. -/
def truthyOpt : Option Json → Bool
  | some v => v.truthy
  | none => false

/-- Character class `[a-z0-9]` of ID_PATTERN. -/
def idChar (c : Char) : Bool := ('a' ≤ c && c ≤ 'z') || ('0' ≤ c && c ≤ '9')

/-- Removal of a single trailing newline: Python's `$` in `re.match` also
matches just before one final newline. -/
def stripTrailingNl : List Char → List Char
  | [] => []
  | ['\n'] => []
  | c :: rest => c :: stripTrailingNl rest

/-- Scanner for `[a-z0-9]+(-[a-z0-9]+)*`: `need` records whether at least one
class character is still required (at the start and after each hyphen). -/
def idScan : Bool → List Char → Bool
  | need, [] => !need
  | need, c :: rest =>
      if c = '-' then (if need then false else idScan true rest)
      else if idChar c then idScan false rest
      else false

/-- Full match of `ID_PATTERN = ^[a-z0-9]+(-[a-z0-9]+)*$` via `re.match`:
nonempty lowercase-alphanumeric runs joined by single hyphens. -/
def idPatternMatch (s : String) : Bool :=
  idScan true (stripTrailingNl s.toList)

/-- Test `ID_PATTERN.match(v)`; a non-string raises `TypeError` in Python
(outside the modelled envelope; the model reports a format mismatch). -/
def jsonIdMatch (v : Json) : Bool :=
  match v with
  | .str s => idPatternMatch s
  | _ => false

/-- Membership of a JSON value in a closed enum list of strings
(`v not in LIST` negated). -/
def enumHas (l : List String) (v : Json) : Bool :=
  match v with
  | .str s => l.contains s
  | _ => false

/-- Python `set.add`, on a set modelled as a first-occurrence list. -/
def addUnique (l : List Json) (x : Json) : List Json :=
  if l.contains x then l else l ++ [x]

/-- State of a file on disk as the scripts observe it: absent
(`os.path.exists` false), present but undecodable (`json.JSONDecodeError`),
present but unreadable (any other exception from `open`/`read`), or parsed
content. -/
inductive FileState where
  | missing : FileState
  | malformed : FileState
  | readFailure : FileState
  | content : Json → FileState

/-- Standard input as `json.load(sys.stdin)` observes it. -/
inductive Input where
  | malformed : Input
  | readFailure : Input
  | parsed : Json → Input

/-- Result of `datetime.fromisoformat(v.replace('Z', '+00:00'))` on a JSON
value: `AttributeError` when `v` is not a string, `ValueError` when the
parser rejects it; both are caught by the scripts. -/
def parseJsonTs (parseTs : String → Option Int) : Json → Option Int
  | .str s => parseTs s
  | _ => none

/-- Entity-id set comprehension shared verbatim by the three layer scripts
(`{e.get("id") for e in entities if isinstance(e, dict) and "id" in e}`),
modelled as a first-occurrence list. -/
def entityIdsOf (elems : List Json) : List Json :=
  (elems.filterMap fun s =>
    if s.isObj && s.hasKey "id" then some (s.getD "id" .null) else none).foldl addUnique []

/-- Shape of every `for idx, x in enumerate(xs)` loop in the scripts that
appends to an error list and a warning list while updating a threaded state
(a seen-id set, an adjacency graph, or coupling counters): the loop runs the
body `step` on each element in order and concatenates its findings. -/
def stLoop {F S : Type} (step : Nat → S → Json → List F × List F × S) :
    Nat → S → List Json → List F × List F × S
  | _, st, [] => ([], [], st)
  | idx, st, x :: rest =>
      let r1 := step idx st x
      let r2 := stLoop step (idx + 1) r1.2.2 rest
      (r1.1 ++ r2.1, r1.2.1 ++ r2.2.1, r2.2.2)

/-- Shape of the stateless per-entity loops (`for entity in entities`)
that only append findings. -/
def eachLoop {F : Type} (f : Json → List F × List F) : List Json → List F × List F
  | [] => ([], [])
  | x :: rest =>
      let r1 := f x
      let r2 := eachLoop f rest
      (r1.1 ++ r2.1, r1.2 ++ r2.2)

namespace C1V

/-- Allowed system types of validate-c1-systems.py. -/
def ALLOWED_SYSTEM_TYPES : List String :=
  ["web-application", "mobile-application", "desktop-application",
   "api-service", "database", "message-broker", "cache", "cdn",
   "external-service", "user-facing", "internal-service",
   "data-store", "integration", "other"]

/-- Allowed observation categories of validate-c1-systems.py. -/
def OBSERVATION_CATEGORIES : List String :=
  ["architectural", "technical", "quality", "security",
   "performance", "scalability", "maintainability", "integration",
   "deployment", "data", "testing", "documentation"]

/-- Allowed observation severities. -/
def OBSERVATION_SEVERITIES : List String := ["info", "warning", "critical"]

/-- Allowed relation types of validate-c1-systems.py. -/
def RELATION_TYPES : List String :=
  ["http-rest", "http-graphql", "http-soap", "grpc", "websocket",
   "message-queue", "event-stream", "database-query", "database-write",
   "file-io", "dependency", "inheritance", "composition", "aggregation",
   "uses", "calls", "contains", "http", "https", "graphql", "rpc",
   "database-connection", "file-transfer", "authentication", "soap",
   "smtp", "external-api"]

/-- One constructor per `errors.append` / `warnings.append` site of
validate-c1-systems.py, in source order, carrying the interpolated data. -/
inductive Finding where
  | parentFileNotFound : Finding
  | recommendationRunInit : Finding
  | failedToReadParentFile : Finding
  | parentFileMissingTimestamp : Finding
  | missingMetadataField : Finding
  | parentTimestampMismatch : Finding
  | mismatchExpected : Json → Finding
  | mismatchActual : Json → Finding
  | timestampMustBeNewer : Finding
  | newerParentInfo : Json → Finding
  | newerCurrentInfo : Json → Finding
  | recommendationGenerateAfterParent : Finding
  | invalidTimestampFormat : Finding
  | noSystemsFound : Finding
  | systemNotObject : Nat → Finding
  | systemMissingField : Nat → String → Finding
  | invalidSystemIdFormat : Json → Finding
  | duplicateSystemId : Json → Finding
  | unknownSystemType : Json → Json → Finding
  | repositoriesMustBeArray : Json → Finding
  | repositoriesEmpty : Json → Finding
  | repositoryNotFound : Json → Json → Finding
  | observationsMustBeArray : Json → Finding
  | observationNotObject : Json → Nat → Finding
  | observationMissingField : Json → Nat → String → Finding
  | duplicateObservationId : Json → Json → Finding
  | unknownObservationCategory : Json → Json → Finding
  | invalidSeverity : Json → Json → Finding
  | observationShortDescription : Json → Json → Finding
  | relationsMustBeArray : Json → Finding
  | relationNotObject : Json → Nat → Finding
  | relationMissingField : Json → Nat → String → Finding
  | duplicateRelationId : Json → Json → Finding
  | unknownRelationType : Json → Json → Finding
  | selfReferencingRelation : Json → Json → Finding
  | relationSourceNotFound : Json → Json → Finding
  | relationTargetNotFound : Json → Json → Finding
  | relationShortDescription : Json → Json → Finding
  | circularDependency : List Json → Finding
  | invalidJson : Finding
  | failedToReadInput : Finding
  | noObservations : Json → Finding
  | noRelations : Json → Finding
  deriving DecidableEq

/-- Check from validate_parent_reference lines 102-111: `metadata.parent`
declares a `timestamp` different from the parent file's own timestamp. -/
def parentShadowMismatch (metadata ptsVal : Json) : Bool :=
  match metadata.get? "parent" with
  | some parent =>
      match parent.get? "timestamp" with
      | some t => t != ptsVal
      | none => false
  | none => false

/-- Embedding of `validate_parent_reference(data, init_file_path)`
(validate-c1-systems.py lines 72-129). -/
def validate_parent_reference (data : Json) (initFile : FileState)
    (parseTs : String → Option Int) : Bool × List Finding :=
  match initFile with
  | .missing => (false, [.parentFileNotFound, .recommendationRunInit])
  | .malformed => (false, [.failedToReadParentFile])
  | .readFailure => (false, [.failedToReadParentFile])
  | .content init_data =>
    let pts := ((init_data.get? "metadata").getD (.obj [])).get? "timestamp"
    if !truthyOpt pts then (false, [.parentFileMissingTimestamp])
    else
      let ptsVal := pts.getD .null
      if !data.hasKey "metadata" then (false, [.missingMetadataField])
      else
        let metadata := data.getD "metadata" .null
        if parentShadowMismatch metadata ptsVal then
          (false, [.parentTimestampMismatch, .mismatchExpected ptsVal,
                   .mismatchActual ((metadata.getD "parent" .null).getD "timestamp" .null)])
        else
          match metadata.get? "timestamp" with
          | none => (true, [])
          | some curV =>
            match parseJsonTs parseTs curV, parseJsonTs parseTs ptsVal with
            | some cur, some par =>
                if cur ≤ par then
                  (false, [.timestampMustBeNewer, .newerParentInfo ptsVal,
                           .newerCurrentInfo curV, .recommendationGenerateAfterParent])
                else (true, [])
            | some _, none => (false, [.invalidTimestampFormat])
            | none, _ => (false, [.invalidTimestampFormat])

/-- Repository-name extraction of main (lines 373-380); the bare `except`
leaves `init_repos = []` on any exception, e.g. a non-list `repositories`
value or a non-dict element. -/
def getInitRepos : FileState → List Json
  | .content init_data =>
    match init_data.get? "repositories" with
    | some (.arr rs) =>
        if rs.all Json.isObj then
          rs.map (fun r => (r.get? "name").getD ((r.get? "path").getD (.str "")))
        else []
    | _ => []
  | _ => []

/-- Required system fields (line 148). -/
def REQUIRED_SYSTEM_FIELDS : List String :=
  ["id", "name", "type", "repositories", "description", "observations", "relations"]

/-- Body of the `for idx, system in enumerate(systems)` loop of
validate_systems (lines 142-182), threading the `seen_ids` set. -/
def systemStep (init_repos : List Json) (idx : Nat) (seen : List Json)
    (system : Json) : List Finding × List Finding × List Json :=
  if !system.isObj then ([.systemNotObject idx], [], seen)
  else
    let fieldErrs : List Finding := REQUIRED_SYSTEM_FIELDS.filterMap fun f =>
      if system.hasKey f then none else some (.systemMissingField idx f)
    let idStep : List Finding × List Json :=
      match system.get? "id" with
      | some idv =>
          ((if !jsonIdMatch idv then [.invalidSystemIdFormat idv] else []) ++
           (if seen.contains idv then [.duplicateSystemId idv] else []),
           addUnique seen idv)
      | none => ([], seen)
    let typeWarns : List Finding :=
      match system.get? "type" with
      | some t =>
          if !enumHas ALLOWED_SYSTEM_TYPES t then
            [.unknownSystemType t (system.getD "id" (.str "unknown"))]
          else []
      | none => []
    let repoStep : List Finding × List Finding :=
      match system.get? "repositories" with
      | some (.arr rs) =>
          if rs.isEmpty then ([.repositoriesEmpty (system.getD "id" (.num (Int.ofNat idx)))], [])
          else ([], rs.filterMap fun repo =>
            if init_repos.contains repo then none
            else some (.repositoryNotFound (system.getD "id" (.num (Int.ofNat idx))) repo))
      | some _ => ([.repositoriesMustBeArray (system.getD "id" (.num (Int.ofNat idx)))], [])
      | none => ([], [])
    (fieldErrs ++ idStep.1 ++ repoStep.1, typeWarns ++ repoStep.2, idStep.2)

/-- Iteration of validate_systems over the systems collection. -/
def systemsLoop (init_repos : List Json) :
    Nat → List Json → List Json → List Finding × List Finding × List Json :=
  stLoop (systemStep init_repos)

/-- Embedding of `validate_systems(systems, init_repos)` (lines 132-184). -/
def validate_systems (systems : Json) (init_repos : List Json) :
    Bool × List Finding × List Finding :=
  if !systems.truthy then (false, [.noSystemsFound], [])
  else
    let r := systemsLoop init_repos 0 [] systems.pyElems
    (r.1.isEmpty, r.1, r.2.1)

/-- Required observation fields (line 211). -/
def REQUIRED_OBSERVATION_FIELDS : List String := ["id", "category", "description"]

/-- Body of the observation loop of validate_observations (lines 205-236),
threading the per-system `seen_obs_ids` set. -/
def observationStep (sys : Json) (idx : Nat) (seen : List Json) (obs : Json) :
    List Finding × List Finding × List Json :=
  if !obs.isObj then ([.observationNotObject sys idx], [], seen)
  else
    let fieldErrs : List Finding := REQUIRED_OBSERVATION_FIELDS.filterMap fun f =>
      if obs.hasKey f then none else some (.observationMissingField sys idx f)
    let idStep : List Finding × List Json :=
      match obs.get? "id" with
      | some obsId =>
          ((if seen.contains obsId then [.duplicateObservationId sys obsId] else []),
           addUnique seen obsId)
      | none => ([], seen)
    let catWarns : List Finding :=
      match obs.get? "category" with
      | some c =>
          if !enumHas OBSERVATION_CATEGORIES c then [.unknownObservationCategory sys c]
          else []
      | none => []
    let sevErrs : List Finding :=
      match obs.get? "severity" with
      | some s => if !enumHas OBSERVATION_SEVERITIES s then [.invalidSeverity sys s] else []
      | none => []
    let descWarns : List Finding :=
      match obs.get? "description" with
      | some d =>
          match d.pyLen with
          | some n =>
              if n < 10 then
                [.observationShortDescription sys (obs.getD "id" (.num (Int.ofNat idx)))]
              else []
          | none => []
      | none => []
    (fieldErrs ++ idStep.1 ++ sevErrs, catWarns ++ descWarns, idStep.2)

/-- Iteration of validate_observations over one system's observations. -/
def observationsLoop (sys : Json) :
    Nat → List Json → List Json → List Finding × List Finding × List Json :=
  stLoop (observationStep sys)

/-- Per-system part of validate_observations (lines 192-236). -/
def systemObservations (system : Json) : List Finding × List Finding :=
  if !system.isObj then ([], [])
  else
    let sys := system.getD "id" (.str "unknown")
    let observations := system.getD "observations" (.arr [])
    if !observations.isArr then ([.observationsMustBeArray sys], [])
    else
      let r := observationsLoop sys 0 [] observations.pyElems
      (r.1, r.2.1)

/-- Iteration of validate_observations over the systems collection. -/
def observationsSystemsLoop : List Json → List Finding × List Finding :=
  eachLoop systemObservations

/-- Embedding of `validate_observations(systems)` (lines 187-238). -/
def validate_observations (systems : Json) : Bool × List Finding × List Finding :=
  let r := observationsSystemsLoop systems.pyElems
  (r.1.isEmpty, r.1, r.2)

/-- Required relation fields (line 271). -/
def REQUIRED_RELATION_FIELDS : List String := ["id", "source", "target", "type", "description"]

/-- Adjacency-list graph for circular-dependency detection: keys are the
collected system ids, values the appended edge targets. -/
abbrev Graph := List (Json × List Json)

/-- The `graph[source].append(target)` update. -/
def graphAppendEdge (g : Graph) (src tgt : Json) : Graph :=
  g.map fun p => if p.1 == src then (p.1, p.2 ++ [tgt]) else p

/-- Body of the relation loop of validate_relations (lines 265-310),
threading the pair of `seen_rel_ids` and the adjacency graph. -/
def relationStep (ids : List Json) (sys : Json) (idx : Nat)
    (st : List Json × Graph) (rel : Json) :
    List Finding × List Finding × List Json × Graph :=
  let seen := st.1
  let g := st.2
  if !rel.isObj then ([.relationNotObject sys idx], [], seen, g)
  else
    let fieldErrs : List Finding := REQUIRED_RELATION_FIELDS.filterMap fun f =>
      if rel.hasKey f then none else some (.relationMissingField sys idx f)
    let idStep : List Finding × List Json :=
      match rel.get? "id" with
      | some rid =>
          ((if seen.contains rid then [.duplicateRelationId sys rid] else []),
           addUnique seen rid)
      | none => ([], seen)
    let typeWarns : List Finding :=
      match rel.get? "type" with
      | some t => if !enumHas RELATION_TYPES t then [.unknownRelationType sys t] else []
      | none => []
    let src := rel.get? "source"
    let tgt := rel.get? "target"
    let stStep : List Finding × Graph :=
      if truthyOpt src && truthyOpt tgt then
        let s := src.getD .null
        let t := tgt.getD .null
        let selfW : List Finding :=
          if s == t then [.selfReferencingRelation sys (rel.getD "id" (.num (Int.ofNat idx)))]
          else []
        let srcW : List Finding := if !ids.contains s then [.relationSourceNotFound sys s] else []
        let tgtW : List Finding := if !ids.contains t then [.relationTargetNotFound sys t] else []
        let g1 := if ids.contains s && ids.contains t then graphAppendEdge g s t else g
        (selfW ++ srcW ++ tgtW, g1)
      else ([], g)
    let descWarns : List Finding :=
      match rel.get? "description" with
      | some d =>
          match d.pyLen with
          | some n =>
              if n < 10 then
                [.relationShortDescription sys (rel.getD "id" (.num (Int.ofNat idx)))]
              else []
          | none => []
      | none => []
    (fieldErrs ++ idStep.1, typeWarns ++ stStep.1 ++ descWarns, idStep.2, stStep.2)

/-- Iteration of validate_relations over one system's relations. -/
def relationsLoop (ids : List Json) (sys : Json) :
    Nat → List Json × Graph → List Json → List Finding × List Finding × List Json × Graph :=
  stLoop (relationStep ids sys)

/-- Per-system part of validate_relations (lines 252-310). -/
def systemRelations (ids : List Json) (g : Graph) (system : Json) :
    List Finding × List Finding × Graph :=
  if !system.isObj then ([], [], g)
  else
    let sys := system.getD "id" (.str "unknown")
    let relations := system.getD "relations" (.arr [])
    if !relations.isArr then ([.relationsMustBeArray sys], [], g)
    else
      let r := relationsLoop ids sys 0 ([], g) relations.pyElems
      (r.1, r.2.1, r.2.2.2)

/-- Iteration of validate_relations over the systems collection. -/
def relationsSystemsLoop (ids : List Json) (g : Graph) (elems : List Json) :
    List Finding × List Finding × Graph :=
  stLoop (fun _ acc s => systemRelations ids acc s) 0 g elems

/-- The neighbor loop of `has_cycle` (lines 318-326): `recurse` performs the
recursive `has_cycle` call on the remaining fuel; `vis` threads the shared
`visited` set, while a returning call restores `rec_stack` so siblings see
the entry set. -/
def cycleScan (recurse : Json → List Json → Bool × List Json × List Json)
    (rec_stack1 path1 : List Json) :
    List Json → List Json → Bool × List Json × List Json
  | [], vis => (false, [], vis)
  | n :: rest, vis =>
      if !vis.contains n then
        match recurse n vis with
        | (true, cp, vis1) => (true, cp, vis1)
        | (false, _, vis1) => cycleScan recurse rec_stack1 path1 rest vis1
      else if rec_stack1.contains n then
        (true, path1.drop (path1.indexOf n) ++ [n], vis)
      else cycleScan recurse rec_stack1 path1 rest vis

/-- Embedding of the recursive `has_cycle(node, visited, rec_stack, path)`
DFS (lines 313-329), returning the found flag, the cycle path and the updated
shared `visited` set.  Recursion is bounded by fuel; each nested call visits
a previously unvisited graph node, so the `g.length + 1` fuel supplied by
`cycleRoots` is never exhausted. -/
def has_cycle (g : Graph) :
    Nat → Json → List Json → List Json → List Json → Bool × List Json × List Json
  | 0, _, visited, _, _ => (false, [], visited)
  | fuel + 1, node, visited, rec_stack, path =>
      let visited1 := addUnique visited node
      let rec_stack1 := addUnique rec_stack node
      let path1 := path ++ [node]
      cycleScan (fun n vis => has_cycle g fuel n vis rec_stack1 path1) rec_stack1 path1
        ((g.lookup node).getD []) visited1

/-- The driver loop over graph keys (lines 331-337), collecting the reported
cycle paths in order and threading the shared `visited` set. -/
def cycleRoots (g : Graph) : List Json → List Json → List (List Json)
  | [], _ => []
  | node :: rest, visited =>
      if visited.contains node then cycleRoots g rest visited
      else
        match has_cycle g (g.length + 1) node visited [] [] with
        | (true, cp, visited1) => cp :: cycleRoots g rest visited1
        | (false, _, visited1) => cycleRoots g rest visited1

/-- Embedding of `validate_relations(systems)` (lines 241-339). -/
def validate_relations (systems : Json) : Bool × List Finding × List Finding :=
  let elems := systems.pyElems
  let ids := entityIdsOf elems
  let g0 : Graph := ids.map fun i => (i, [])
  let r := relationsSystemsLoop ids g0 elems
  let cycles := cycleRoots r.2.2 (r.2.2.map (·.1)) []
  (r.1.isEmpty, r.1, r.2.1 ++ cycles.map Finding.circularDependency)

/-- Empty-observations / empty-relations warnings of main (lines 414-424). -/
def trailingWarns : List Json → List Finding
  | [] => []
  | system :: rest =>
      (if system.isObj then
        let sys := system.getD "id" (.str "unknown")
        (if !(system.getD "observations" (.arr [])).truthy then [.noObservations sys] else []) ++
        (if !(system.getD "relations" (.arr [])).truthy then [.noRelations sys] else [])
      else []) ++ trailingWarns rest

/-- The `err.startswith("RECOMMENDATION:")` test of main line 369. -/
def isRecommendation : Finding → Bool
  | .recommendationRunInit => true
  | .recommendationGenerateAfterParent => true
  | _ => false

/-- Embedding of `main()` (lines 342-435): exit code, emitted errors and
emitted warnings.  The parent file state is read both by the lineage check
and by the repository extraction. -/
def main (input : Input) (initFile : FileState) (parseTs : String → Option Int) :
    Nat × List Finding × List Finding :=
  match input with
  | .malformed => (2, [.invalidJson], [])
  | .readFailure => (2, [.failedToReadInput], [])
  | .parsed data =>
    let lin := validate_parent_reference data initFile parseTs
    if !lin.1 then
      (2, lin.2.filter (fun e => !isRecommendation e), lin.2.filter isRecommendation)
    else
      let init_repos := getInitRepos initFile
      let systems := data.getD "systems" (.arr [])
      let r2 := validate_systems systems init_repos
      let r3 := validate_observations systems
      let r4 := validate_relations systems
      let extra := trailingWarns systems.pyElems
      let has_errors := !r2.1 || !r3.1 || !r4.1
      let has_warnings :=
        !r2.2.2.isEmpty || !r3.2.2.isEmpty || !r4.2.2.isEmpty || !extra.isEmpty
      (if has_errors then 2 else if has_warnings then 1 else 0,
       r2.2.1 ++ r3.2.1 ++ r4.2.1,
       r2.2.2 ++ r3.2.2 ++ r4.2.2 ++ extra)

end C1V

namespace C2V

/-- Allowed container types of validate-c2-containers.py. -/
def ALLOWED_CONTAINER_TYPES : List String :=
  ["web-server", "app-server", "database", "cache", "message-broker",
   "spa", "api", "worker", "file-storage", "web-application", "application-server",
   "spa-client", "mobile-app", "desktop-app"]

/-- Allowed runtime environments. -/
def ALLOWED_ENVIRONMENTS : List String := ["browser", "server", "cloud", "edge", "mobile"]

/-- Allowed observation categories of validate-c2-containers.py. -/
def OBSERVATION_CATEGORIES : List String :=
  ["architectural", "technical", "quality", "security",
   "performance", "scalability", "maintainability", "integration",
   "deployment", "data", "testing", "documentation", "technology",
   "runtime", "communication", "data-storage", "authentication",
   "configuration", "monitoring", "dependencies"]

/-- Allowed observation severities. -/
def OBSERVATION_SEVERITIES : List String := ["info", "warning", "critical"]

/-- Allowed relation types of validate-c2-containers.py. -/
def RELATION_TYPES : List String :=
  ["http-rest", "http-graphql", "grpc", "websocket",
   "database-connection", "database-query", "database-write", "database-read-write",
   "cache-access", "cache-read", "cache-write", "cache-read-write",
   "message-publish", "message-subscribe", "message-consumer",
   "file-read", "file-write", "cdn-fetch", "stream",
   "dependency", "uses", "calls", "contains"]

/-- One constructor per `errors.append` / `warnings.append` site of
validate-c2-containers.py, in source order, carrying the interpolated data. -/
inductive Finding where
  | parentFileNotFound : Finding
  | recommendationRunC1 : Finding
  | failedToReadParentFile : Finding
  | parentFileMissingTimestamp : Finding
  | missingMetadataField : Finding
  | timestampMustBeNewer : Finding
  | newerParentInfo : Json → Finding
  | newerCurrentInfo : Json → Finding
  | invalidTimestampFormat : Finding
  | noContainersFound : Finding
  | containerNotObject : Nat → Finding
  | containerMissingField : Nat → String → Finding
  | invalidContainerIdFormat : Json → Finding
  | duplicateContainerId : Json → Finding
  | unknownContainerType : Json → Json → Finding
  | containerSystemNotFound : Json → Json → Finding
  | availableSystemsInfo : List Json → Finding
  | technologyMustBeObject : Json → Finding
  | missingPrimaryLanguage : Json → Finding
  | missingFramework : Json → Finding
  | runtimeMustBeObject : Json → Finding
  | missingRuntimeEnvironment : Json → Finding
  | unknownEnvironment : Json → Json → Finding
  | missingRuntimePlatform : Json → Finding
  | missingContainerized : Json → Finding
  | missingContainerTechnology : Json → Finding
  | observationsMustBeArray : Json → Finding
  | observationNotObject : Json → Nat → Finding
  | observationMissingField : Json → Nat → String → Finding
  | duplicateObservationId : Json → Json → Finding
  | unknownObservationCategory : Json → Json → Finding
  | invalidSeverity : Json → Json → Finding
  | observationShortDescription : Json → Json → Finding
  | relationsMustBeArray : Json → Finding
  | relationNotObject : Json → Nat → Finding
  | relationMissingField : Json → Nat → String → Finding
  | unknownRelationType : Json → Json → Finding
  | relationTargetNotFound : Json → Json → Finding
  | relationShortDescription : Json → Finding
  | invalidJson : Finding
  | failedToReadInput : Finding
  | systemHasNoContainers : Json → Finding
  deriving DecidableEq

/-- Embedding of `validate_parent_reference(data, c1_file_path)`
(validate-c2-containers.py lines 73-119); the third component is the parent
timestamp string the Python function returns (`""` on failure). -/
def validate_parent_reference (data : Json) (c1File : FileState)
    (parseTs : String → Option Int) : Bool × List Finding × Json :=
  match c1File with
  | .missing => (false, [.parentFileNotFound, .recommendationRunC1], .str "")
  | .malformed => (false, [.failedToReadParentFile], .str "")
  | .readFailure => (false, [.failedToReadParentFile], .str "")
  | .content c1_data =>
    let pts := ((c1_data.get? "metadata").getD (.obj [])).get? "timestamp"
    if !truthyOpt pts then (false, [.parentFileMissingTimestamp], .str "")
    else
      let ptsVal := pts.getD .null
      if !data.hasKey "metadata" then (false, [.missingMetadataField], .str "")
      else
        let metadata := data.getD "metadata" .null
        match metadata.get? "timestamp" with
        | none => (true, [], ptsVal)
        | some curV =>
          match parseJsonTs parseTs curV, parseJsonTs parseTs ptsVal with
          | some cur, some par =>
              if cur ≤ par then
                (false, [.timestampMustBeNewer, .newerParentInfo ptsVal,
                         .newerCurrentInfo curV], .str "")
              else (true, [], ptsVal)
          | some _, none => (false, [.invalidTimestampFormat], .str "")
          | none, _ => (false, [.invalidTimestampFormat], .str "")

/-- System-id extraction of main (lines 338-344); the bare `except` leaves
the set empty on any exception. -/
def getC1SystemIds : FileState → List Json
  | .content c1_data => entityIdsOf (c1_data.getD "systems" (.arr [])).pyElems
  | _ => []

/-- Required container fields (line 138). -/
def REQUIRED_CONTAINER_FIELDS : List String :=
  ["id", "name", "type", "system_id", "responsibility", "technology", "runtime"]

/-- Body of the `for idx, container in enumerate(containers)` loop of
validate_containers (lines 132-197), threading the `seen_ids` set. -/
def containerStep (c1_system_ids : List Json) (idx : Nat) (seen : List Json)
    (container : Json) : List Finding × List Finding × List Json :=
  if !container.isObj then ([.containerNotObject idx], [], seen)
  else
    let ref := container.getD "id" (.num (Int.ofNat idx))
    let fieldErrs : List Finding := REQUIRED_CONTAINER_FIELDS.filterMap fun f =>
      if container.hasKey f then none else some (.containerMissingField idx f)
    let idStep : List Finding × List Json :=
      match container.get? "id" with
      | some idv =>
          ((if !jsonIdMatch idv then [.invalidContainerIdFormat idv] else []) ++
           (if seen.contains idv then [.duplicateContainerId idv] else []),
           addUnique seen idv)
      | none => ([], seen)
    let typeWarns : List Finding :=
      match container.get? "type" with
      | some t =>
          if !enumHas ALLOWED_CONTAINER_TYPES t then
            [.unknownContainerType t (container.getD "id" (.str "unknown"))]
          else []
      | none => []
    let sysErrs : List Finding :=
      match container.get? "system_id" with
      | some sid =>
          if !c1_system_ids.contains sid then
            [.containerSystemNotFound ref sid, .availableSystemsInfo c1_system_ids]
          else []
      | none => []
    let techErrs : List Finding :=
      match container.get? "technology" with
      | some tech =>
          if !tech.isObj then [.technologyMustBeObject ref]
          else
            (if tech.hasKey "primary_language" then [] else [.missingPrimaryLanguage ref]) ++
            (if tech.hasKey "framework" then [] else [.missingFramework ref])
      | none => []
    let runtimeStep : List Finding × List Finding :=
      match container.get? "runtime" with
      | some runtime =>
          if !runtime.isObj then ([.runtimeMustBeObject ref], [])
          else
            let envStep : List Finding × List Finding :=
              match runtime.get? "environment" with
              | none => ([.missingRuntimeEnvironment ref], [])
              | some env =>
                  if !enumHas ALLOWED_ENVIRONMENTS env then ([], [.unknownEnvironment ref env])
                  else ([], [])
            let platErrs : List Finding :=
              if runtime.hasKey "platform" then [] else [.missingRuntimePlatform ref]
            let contErrs : List Finding :=
              match runtime.get? "containerized" with
              | none => [.missingContainerized ref]
              | some coz =>
                  if coz.truthy && !runtime.hasKey "container_technology" then
                    [.missingContainerTechnology ref]
                  else []
            (envStep.1 ++ platErrs ++ contErrs, envStep.2)
      | none => ([], [])
    (fieldErrs ++ idStep.1 ++ sysErrs ++ techErrs ++ runtimeStep.1,
     typeWarns ++ runtimeStep.2, idStep.2)

/-- Iteration of validate_containers over the containers collection. -/
def containersLoop (c1_system_ids : List Json) :
    Nat → List Json → List Json → List Finding × List Finding × List Json :=
  stLoop (containerStep c1_system_ids)

/-- Embedding of `validate_containers(containers, c1_system_ids)`
(lines 122-198). -/
def validate_containers (containers : Json) (c1_system_ids : List Json) :
    Bool × List Finding × List Finding :=
  if !containers.truthy then (false, [.noContainersFound], [])
  else
    let r := containersLoop c1_system_ids 0 [] containers.pyElems
    (r.1.isEmpty, r.1, r.2.1)

/-- Required observation fields (line 225). -/
def REQUIRED_OBSERVATION_FIELDS : List String := ["id", "category", "description"]

/-- Body of the observation loop of validate_observations (lines 219-250),
threading the per-container `seen_obs_ids` set. -/
def observationStep (sys : Json) (idx : Nat) (seen : List Json) (obs : Json) :
    List Finding × List Finding × List Json :=
  if !obs.isObj then ([.observationNotObject sys idx], [], seen)
  else
    let fieldErrs : List Finding := REQUIRED_OBSERVATION_FIELDS.filterMap fun f =>
      if obs.hasKey f then none else some (.observationMissingField sys idx f)
    let idStep : List Finding × List Json :=
      match obs.get? "id" with
      | some obsId =>
          ((if seen.contains obsId then [.duplicateObservationId sys obsId] else []),
           addUnique seen obsId)
      | none => ([], seen)
    let catWarns : List Finding :=
      match obs.get? "category" with
      | some c =>
          if !enumHas OBSERVATION_CATEGORIES c then [.unknownObservationCategory sys c]
          else []
      | none => []
    let sevErrs : List Finding :=
      match obs.get? "severity" with
      | some s => if !enumHas OBSERVATION_SEVERITIES s then [.invalidSeverity sys s] else []
      | none => []
    let descWarns : List Finding :=
      match obs.get? "description" with
      | some d =>
          match d.pyLen with
          | some n =>
              if n < 10 then
                [.observationShortDescription sys (obs.getD "id" (.num (Int.ofNat idx)))]
              else []
          | none => []
      | none => []
    (fieldErrs ++ idStep.1 ++ sevErrs, catWarns ++ descWarns, idStep.2)

/-- Iteration of validate_observations over one container's observations. -/
def observationsLoop (sys : Json) :
    Nat → List Json → List Json → List Finding × List Finding × List Json :=
  stLoop (observationStep sys)

/-- Per-container part of validate_observations (lines 206-250). -/
def containerObservations (container : Json) : List Finding × List Finding :=
  if !container.isObj then ([], [])
  else
    let sys := container.getD "id" (.str "unknown")
    let observations := container.getD "observations" (.arr [])
    if !observations.isArr then ([.observationsMustBeArray sys], [])
    else
      let r := observationsLoop sys 0 [] observations.pyElems
      (r.1, r.2.1)

/-- Iteration of validate_observations over the containers collection. -/
def observationsContainersLoop : List Json → List Finding × List Finding :=
  eachLoop containerObservations

/-- Embedding of `validate_observations(containers)` (lines 201-252). -/
def validate_observations (containers : Json) : Bool × List Finding × List Finding :=
  let r := observationsContainersLoop containers.pyElems
  (r.1.isEmpty, r.1, r.2)

/-- Required relation fields (line 282). -/
def REQUIRED_RELATION_FIELDS : List String := ["target", "type", "description"]

/-- Body of the relation loop of validate_relations (lines 276-301).  The
`seen_rel_ids` set declared at line 274 is dead code (never read or
written) and is omitted.  There is no cycle detection and no exemption for
external-looking targets in this script. -/
def relationStep (container_ids : List Json) (sys : Json) (idx : Nat) (rel : Json) :
    List Finding × List Finding :=
  if !rel.isObj then ([.relationNotObject sys idx], [])
  else
    let fieldErrs : List Finding := REQUIRED_RELATION_FIELDS.filterMap fun f =>
      if rel.hasKey f then none else some (.relationMissingField sys idx f)
    let typeWarns : List Finding :=
      match rel.get? "type" with
      | some t => if !enumHas RELATION_TYPES t then [.unknownRelationType sys t] else []
      | none => []
    let tgtWarns : List Finding :=
      match rel.get? "target" with
      | some t => if !container_ids.contains t then [.relationTargetNotFound sys t] else []
      | none => []
    let descWarns : List Finding :=
      match rel.get? "description" with
      | some d =>
          match d.pyLen with
          | some n => if n < 10 then [.relationShortDescription sys] else []
          | none => []
      | none => []
    (fieldErrs, typeWarns ++ tgtWarns ++ descWarns)

/-- Iteration of validate_relations over one container's relations. -/
def relationsLoop (container_ids : List Json) (sys : Json) :
    Nat → List Json → List Finding × List Finding :=
  fun idx rels =>
    let r := stLoop (fun i _ rel =>
      let r1 := relationStep container_ids sys i rel
      (r1.1, r1.2, ())) idx () rels
    (r.1, r.2.1)

/-- Per-container part of validate_relations (lines 263-301). -/
def containerRelations (container_ids : List Json) (container : Json) :
    List Finding × List Finding :=
  if !container.isObj then ([], [])
  else
    let sys := container.getD "id" (.str "unknown")
    let relations := container.getD "relations" (.arr [])
    if !relations.isArr then ([.relationsMustBeArray sys], [])
    else relationsLoop container_ids sys 0 relations.pyElems

/-- Iteration of validate_relations over the containers collection. -/
def relationsContainersLoop (container_ids : List Json) :
    List Json → List Finding × List Finding :=
  eachLoop (containerRelations container_ids)

/-- Embedding of `validate_relations(containers)` (lines 255-303). -/
def validate_relations (containers : Json) : Bool × List Finding × List Finding :=
  let elems := containers.pyElems
  let container_ids := entityIdsOf elems
  let r := relationsContainersLoop container_ids elems
  (r.1.isEmpty, r.1, r.2)

/-- Truthy `system_id` values of dict containers (lines 378-383), i.e. the
keys of `containers_by_system`. -/
def coveredSystems (elems : List Json) : List Json :=
  elems.filterMap fun c =>
    if c.isObj then
      match c.get? "system_id" with
      | some v => if v.truthy then some v else none
      | none => none
    else none

/-- Systems-with-no-containers warnings of main (lines 385-388). -/
def trailingWarns (c1_system_ids : List Json) (elems : List Json) : List Finding :=
  c1_system_ids.filterMap fun sid =>
    if (coveredSystems elems).contains sid then none
    else some (.systemHasNoContainers sid)

/-- The `err.startswith("RECOMMENDATION:")` test of main lines 331-334. -/
def isRecommendation : Finding → Bool
  | .recommendationRunC1 => true
  | _ => false

/-- Embedding of `main()` (validate-c2-containers.py lines 306-399): exit
code, emitted errors and emitted warnings. -/
def main (input : Input) (c1File : FileState) (parseTs : String → Option Int) :
    Nat × List Finding × List Finding :=
  match input with
  | .malformed => (2, [.invalidJson], [])
  | .readFailure => (2, [.failedToReadInput], [])
  | .parsed data =>
    let lin := validate_parent_reference data c1File parseTs
    if !lin.1 then
      (2, lin.2.1.filter (fun e => !isRecommendation e), lin.2.1.filter isRecommendation)
    else
      let c1_system_ids := getC1SystemIds c1File
      let containers := data.getD "containers" (.arr [])
      let r2 := validate_containers containers c1_system_ids
      let r3 := validate_observations containers
      let r4 := validate_relations containers
      let extra := trailingWarns c1_system_ids containers.pyElems
      let has_errors := !r2.1 || !r3.1 || !r4.1
      let has_warnings :=
        !r2.2.2.isEmpty || !r3.2.2.isEmpty || !r4.2.2.isEmpty || !extra.isEmpty
      (if has_errors then 2 else if has_warnings then 1 else 0,
       r2.2.1 ++ r3.2.1 ++ r4.2.1,
       r2.2.2 ++ r3.2.2 ++ r4.2.2 ++ extra)

end C2V

namespace C3V

/-- Allowed component types of validate-c3-components.py. -/
def ALLOWED_COMPONENT_TYPES : List String :=
  ["service", "controller", "repository", "model", "utility",
   "middleware", "view", "component", "config", "facade",
   "factory", "adapter"]

/-- Allowed observation categories of validate-c3-components.py. -/
def OBSERVATION_CATEGORIES : List String :=
  ["design-patterns", "code-quality", "dependencies", "testing",
   "complexity", "maintainability", "code-structure", "error-handling",
   "performance", "security", "documentation", "coupling", "cohesion"]

/-- Allowed observation severities. -/
def OBSERVATION_SEVERITIES : List String := ["info", "warning", "critical"]

/-- Allowed relation types of validate-c3-components.py. -/
def RELATION_TYPES : List String :=
  ["dependency", "interface-implementation", "event-publisher", "event-subscriber",
   "uses", "calls", "imports", "injects", "observes", "delegates",
   "provides", "consumes", "inherits", "implements", "composes",
   "aggregates", "notifies", "extends"]

/-- Allowed coupling values. -/
def COUPLING_TYPES : List String := ["loose", "tight"]

/-- One constructor per `errors.append` / `warnings.append` site of
validate-c3-components.py, in source order, carrying the interpolated data. -/
inductive Finding where
  | parentFileNotFound : Finding
  | recommendationRunC2 : Finding
  | failedToReadParentFile : Finding
  | parentFileMissingTimestamp : Finding
  | missingMetadataField : Finding
  | timestampMustBeNewer : Finding
  | newerParentInfo : Json → Finding
  | newerCurrentInfo : Json → Finding
  | invalidTimestampFormat : Finding
  | noComponentsFound : Finding
  | componentNotObject : Nat → Finding
  | componentMissingField : Nat → String → Finding
  | invalidComponentIdFormat : Json → Finding
  | duplicateComponentId : Json → Finding
  | unknownComponentType : Json → Json → Finding
  | componentContainerNotFound : Json → Json → Finding
  | availableContainersInfo : List Json → Finding
  | structureMustBeObject : Json → Finding
  | missingStructurePath : Json → Finding
  | missingStructureLanguage : Json → Finding
  | emptyFilesArray : Json → Finding
  | observationsMustBeArray : Json → Finding
  | observationNotObject : Json → Nat → Finding
  | observationMissingField : Json → Nat → String → Finding
  | duplicateObservationId : Json → Json → Finding
  | unknownObservationCategory : Json → Json → Finding
  | invalidSeverity : Json → Json → Finding
  | observationShortDescription : Json → Json → Finding
  | relationsMustBeArray : Json → Finding
  | relationNotObject : Json → Nat → Finding
  | relationMissingField : Json → Nat → String → Finding
  | unknownRelationType : Json → Json → Finding
  | invalidCoupling : Json → Json → Finding
  | relationTargetNotFound : Json → Json → Finding
  | relationShortDescription : Json → Finding
  | highTightCoupling : Nat → Nat → Finding
  | invalidJson : Finding
  | failedToReadInput : Finding
  | containerHasNoComponents : Json → Finding
  deriving DecidableEq

/-- Embedding of `validate_parent_reference(data, c2_file_path)`
(validate-c3-components.py lines 70-116). -/
def validate_parent_reference (data : Json) (c2File : FileState)
    (parseTs : String → Option Int) : Bool × List Finding :=
  match c2File with
  | .missing => (false, [.parentFileNotFound, .recommendationRunC2])
  | .malformed => (false, [.failedToReadParentFile])
  | .readFailure => (false, [.failedToReadParentFile])
  | .content c2_data =>
    let pts := ((c2_data.get? "metadata").getD (.obj [])).get? "timestamp"
    if !truthyOpt pts then (false, [.parentFileMissingTimestamp])
    else
      let ptsVal := pts.getD .null
      if !data.hasKey "metadata" then (false, [.missingMetadataField])
      else
        let metadata := data.getD "metadata" .null
        match metadata.get? "timestamp" with
        | none => (true, [])
        | some curV =>
          match parseJsonTs parseTs curV, parseJsonTs parseTs ptsVal with
          | some cur, some par =>
              if cur ≤ par then
                (false, [.timestampMustBeNewer, .newerParentInfo ptsVal,
                         .newerCurrentInfo curV])
              else (true, [])
          | some _, none => (false, [.invalidTimestampFormat])
          | none, _ => (false, [.invalidTimestampFormat])

/-- Container-id extraction of main (lines 337-345); exceptions caught there
leave the set empty. -/
def getC2ContainerIds : FileState → List Json
  | .content c2_data => entityIdsOf (c2_data.getD "containers" (.arr [])).pyElems
  | _ => []

/-- Required component fields (line 135). -/
def REQUIRED_COMPONENT_FIELDS : List String :=
  ["id", "name", "type", "container_id", "responsibility", "structure"]

/-- Body of the `for idx, component in enumerate(components)` loop of
validate_components (lines 129-179), threading the `seen_ids` set. -/
def componentStep (c2_container_ids : List Json) (idx : Nat) (seen : List Json)
    (component : Json) : List Finding × List Finding × List Json :=
  if !component.isObj then ([.componentNotObject idx], [], seen)
  else
    let ref := component.getD "id" (.num (Int.ofNat idx))
    let fieldErrs : List Finding := REQUIRED_COMPONENT_FIELDS.filterMap fun f =>
      if component.hasKey f then none else some (.componentMissingField idx f)
    let idStep : List Finding × List Json :=
      match component.get? "id" with
      | some idv =>
          ((if !jsonIdMatch idv then [.invalidComponentIdFormat idv] else []) ++
           (if seen.contains idv then [.duplicateComponentId idv] else []),
           addUnique seen idv)
      | none => ([], seen)
    let typeWarns : List Finding :=
      match component.get? "type" with
      | some t =>
          if !enumHas ALLOWED_COMPONENT_TYPES t then
            [.unknownComponentType t (component.getD "id" (.str "unknown"))]
          else []
      | none => []
    let contErrs : List Finding :=
      match component.get? "container_id" with
      | some cid =>
          if !c2_container_ids.contains cid then
            [.componentContainerNotFound ref cid, .availableContainersInfo c2_container_ids]
          else []
      | none => []
    let structStep : List Finding × List Finding :=
      match component.get? "structure" with
      | some struct =>
          if !struct.isObj then ([.structureMustBeObject ref], [])
          else
            ((if struct.hasKey "path" then [] else [.missingStructurePath ref]) ++
             (if struct.hasKey "language" then [] else [.missingStructureLanguage ref]),
             match struct.get? "files" with
             | some (.arr fs) => if fs.isEmpty then [.emptyFilesArray ref] else []
             | _ => [])
      | none => ([], [])
    (fieldErrs ++ idStep.1 ++ contErrs ++ structStep.1,
     typeWarns ++ structStep.2, idStep.2)

/-- Iteration of validate_components over the components collection. -/
def componentsLoop (c2_container_ids : List Json) :
    Nat → List Json → List Json → List Finding × List Finding × List Json :=
  stLoop (componentStep c2_container_ids)

/-- Embedding of `validate_components(components, c2_container_ids)`
(lines 119-180). -/
def validate_components (components : Json) (c2_container_ids : List Json) :
    Bool × List Finding × List Finding :=
  if !components.truthy then (false, [.noComponentsFound], [])
  else
    let r := componentsLoop c2_container_ids 0 [] components.pyElems
    (r.1.isEmpty, r.1, r.2.1)

/-- Required observation fields (line 207). -/
def REQUIRED_OBSERVATION_FIELDS : List String := ["id", "category", "description"]

/-- Body of the observation loop of validate_observations (lines 201-232),
threading the per-component `seen_obs_ids` set. -/
def observationStep (sys : Json) (idx : Nat) (seen : List Json) (obs : Json) :
    List Finding × List Finding × List Json :=
  if !obs.isObj then ([.observationNotObject sys idx], [], seen)
  else
    let fieldErrs : List Finding := REQUIRED_OBSERVATION_FIELDS.filterMap fun f =>
      if obs.hasKey f then none else some (.observationMissingField sys idx f)
    let idStep : List Finding × List Json :=
      match obs.get? "id" with
      | some obsId =>
          ((if seen.contains obsId then [.duplicateObservationId sys obsId] else []),
           addUnique seen obsId)
      | none => ([], seen)
    let catWarns : List Finding :=
      match obs.get? "category" with
      | some c =>
          if !enumHas OBSERVATION_CATEGORIES c then [.unknownObservationCategory sys c]
          else []
      | none => []
    let sevErrs : List Finding :=
      match obs.get? "severity" with
      | some s => if !enumHas OBSERVATION_SEVERITIES s then [.invalidSeverity sys s] else []
      | none => []
    let descWarns : List Finding :=
      match obs.get? "description" with
      | some d =>
          match d.pyLen with
          | some n =>
              if n < 10 then
                [.observationShortDescription sys (obs.getD "id" (.num (Int.ofNat idx)))]
              else []
          | none => []
      | none => []
    (fieldErrs ++ idStep.1 ++ sevErrs, catWarns ++ descWarns, idStep.2)

/-- Iteration of validate_observations over one component's observations. -/
def observationsLoop (sys : Json) :
    Nat → List Json → List Json → List Finding × List Finding × List Json :=
  stLoop (observationStep sys)

/-- Per-component part of validate_observations (lines 188-232). -/
def componentObservations (component : Json) : List Finding × List Finding :=
  if !component.isObj then ([], [])
  else
    let sys := component.getD "id" (.str "unknown")
    let observations := component.getD "observations" (.arr [])
    if !observations.isArr then ([.observationsMustBeArray sys], [])
    else
      let r := observationsLoop sys 0 [] observations.pyElems
      (r.1, r.2.1)

/-- Iteration of validate_observations over the components collection. -/
def observationsComponentsLoop : List Json → List Finding × List Finding :=
  eachLoop componentObservations

/-- Embedding of `validate_observations(components)` (lines 183-234). -/
def validate_observations (components : Json) : Bool × List Finding × List Finding :=
  let r := observationsComponentsLoop components.pyElems
  (r.1.isEmpty, r.1, r.2)

/-- Required relation fields (line 270). -/
def REQUIRED_RELATION_FIELDS : List String := ["target", "type", "coupling", "description"]

/-- Body of the relation loop of validate_relations (lines 262-296); the last
component counts the relation toward `tight_coupling_count`.  There is no
cycle detection and no exemption for external-looking targets in this
script. -/
def relationStep (component_ids : List Json) (sys : Json) (idx : Nat) (rel : Json) :
    List Finding × List Finding × Nat :=
  if !rel.isObj then ([.relationNotObject sys idx], [], 0)
  else
    let fieldErrs : List Finding := REQUIRED_RELATION_FIELDS.filterMap fun f =>
      if rel.hasKey f then none else some (.relationMissingField sys idx f)
    let typeWarns : List Finding :=
      match rel.get? "type" with
      | some t => if !enumHas RELATION_TYPES t then [.unknownRelationType sys t] else []
      | none => []
    let couplingStep : List Finding × Nat :=
      match rel.get? "coupling" with
      | some c =>
          if !enumHas COUPLING_TYPES c then ([.invalidCoupling sys c], 0)
          else if c == .str "tight" then ([], 1) else ([], 0)
      | none => ([], 0)
    let tgtWarns : List Finding :=
      match rel.get? "target" with
      | some t => if !component_ids.contains t then [.relationTargetNotFound sys t] else []
      | none => []
    let descWarns : List Finding :=
      match rel.get? "description" with
      | some d =>
          match d.pyLen with
          | some n => if n < 10 then [.relationShortDescription sys] else []
          | none => []
      | none => []
    (fieldErrs ++ couplingStep.1, typeWarns ++ tgtWarns ++ descWarns, couplingStep.2)

/-- Iteration of validate_relations over one component's relations; the last
two components accumulate `tight_coupling_count` and `total_relations`
(every element counts toward the total, dict or not). -/
def relationsLoop (component_ids : List Json) (sys : Json) :
    Nat → List Json → List Finding × List Finding × Nat × Nat :=
  fun idx rels =>
    stLoop (fun i (st : Nat × Nat) rel =>
      let r1 := relationStep component_ids sys i rel
      (r1.1, r1.2.1, st.1 + r1.2.2, st.2 + 1)) idx (0, 0) rels

/-- Per-component part of validate_relations (lines 249-296). -/
def componentRelations (component_ids : List Json) (component : Json) :
    List Finding × List Finding × Nat × Nat :=
  if !component.isObj then ([], [], 0, 0)
  else
    let sys := component.getD "id" (.str "unknown")
    let relations := component.getD "relations" (.arr [])
    if !relations.isArr then ([.relationsMustBeArray sys], [], 0, 0)
    else relationsLoop component_ids sys 0 relations.pyElems

/-- Iteration of validate_relations over the components collection,
accumulating the coupling counters across components. -/
def relationsComponentsLoop (component_ids : List Json) (elems : List Json) :
    List Finding × List Finding × Nat × Nat :=
  stLoop (fun _ (st : Nat × Nat) c =>
    let r1 := componentRelations component_ids c
    (r1.1, r1.2.1, st.1 + r1.2.2.1, st.2 + r1.2.2.2)) 0 (0, 0) elems

/-- Embedding of `validate_relations(components)` (lines 237-302).  The
threshold `tight > total * 0.3` is computed with the float literal `0.3` in
Python; the model uses the exact rational comparison `10 * tight > 3 * total`,
which agrees except possibly on knife-edge float roundings no claim
exercises. -/
def validate_relations (components : Json) : Bool × List Finding × List Finding :=
  let elems := components.pyElems
  let component_ids := entityIdsOf elems
  let r := relationsComponentsLoop component_ids elems
  let tight := r.2.2.1
  let total := r.2.2.2
  let ratioWarns : List Finding :=
    if 0 < total && 3 * total < 10 * tight then [.highTightCoupling tight total] else []
  (r.1.isEmpty, r.1, r.2.1 ++ ratioWarns)

/-- Truthy `container_id` values of dict components (lines 379-384). -/
def coveredContainers (elems : List Json) : List Json :=
  elems.filterMap fun c =>
    if c.isObj then
      match c.get? "container_id" with
      | some v => if v.truthy then some v else none
      | none => none
    else none

/-- Containers-with-no-components warnings of main (lines 386-389). -/
def trailingWarns (c2_container_ids : List Json) (elems : List Json) : List Finding :=
  c2_container_ids.filterMap fun cid =>
    if (coveredContainers elems).contains cid then none
    else some (.containerHasNoComponents cid)

/-- The `err.startswith("RECOMMENDATION:")` test of main lines 330-333. -/
def isRecommendation : Finding → Bool
  | .recommendationRunC2 => true
  | _ => false

/-- Embedding of `main()` (validate-c3-components.py lines 305-400): exit
code, emitted errors and emitted warnings. -/
def main (input : Input) (c2File : FileState) (parseTs : String → Option Int) :
    Nat × List Finding × List Finding :=
  match input with
  | .malformed => (2, [.invalidJson], [])
  | .readFailure => (2, [.failedToReadInput], [])
  | .parsed data =>
    let lin := validate_parent_reference data c2File parseTs
    if !lin.1 then
      (2, lin.2.filter (fun e => !isRecommendation e), lin.2.filter isRecommendation)
    else
      let c2_container_ids := getC2ContainerIds c2File
      let components := data.getD "components" (.arr [])
      let r2 := validate_components components c2_container_ids
      let r3 := validate_observations components
      let r4 := validate_relations components
      let extra := trailingWarns c2_container_ids components.pyElems
      let has_errors := !r2.1 || !r3.1 || !r4.1
      let has_warnings :=
        !r2.2.2.isEmpty || !r3.2.2.isEmpty || !r4.2.2.isEmpty || !extra.isEmpty
      (if has_errors then 2 else if has_warnings then 1 else 0,
       r2.2.1 ++ r3.2.1 ++ r4.2.1,
       r2.2.2 ++ r3.2.2 ++ r4.2.2 ++ extra)

end C3V

namespace InitV

/-- Allowed manifest types of validate-init.py. -/
def ALLOWED_MANIFEST_TYPES : List String :=
  ["npm", "composer", "cargo", "go-mod", "gradle", "maven",
   "requirements-txt", "pyproject-toml", "gemfile", "unknown"]

/-- Scanner for three dot-separated nonempty digit runs: `dots` counts the
separators seen, `need` records whether a digit is still required. -/
def semScan : Nat → Bool → List Char → Bool
  | dots, need, [] => !need && dots == 2
  | dots, need, c :: rest =>
      if c = '.' then (if need then false else semScan (dots + 1) true rest)
      else if c.isDigit then semScan dots false rest
      else false

/-- Full match of `SEMVER_PATTERN = ^\d+\.\d+\.\d+$` via `re.match`; Python's
`$` also accepts one trailing newline. -/
def semverMatch (s : String) : Bool :=
  semScan 0 true (stripTrailingNl s.toList)

/-- Test `SEMVER_PATTERN.match(v)`; a non-string raises `TypeError` in Python
(outside the modelled envelope; the model reports a mismatch). -/
def jsonSemverMatch (v : Json) : Bool :=
  match v with
  | .str s => semverMatch s
  | _ => false

/-- Test `os.path.isabs` (POSIX) on a JSON value; a non-string raises in
Python (outside the modelled envelope). -/
def jsonIsAbs (v : Json) : Bool :=
  match v with
  | .str s => s.startsWith "/"
  | _ => false

/-- POSIX `os.path.join(a, b)` for a relative second argument. -/
def pyJoin (a b : String) : String :=
  if a.endsWith "/" then a ++ b else a ++ "/" ++ b

/-- One constructor per `errors.append` / `warnings.append` site of
validate-init.py, in source order, carrying the interpolated data. -/
inductive Finding where
  | missingMetadata : Finding
  | missingMetadataKey : String → Finding
  | invalidSchemaVersion : Json → Finding
  | invalidTimestampFormat : Json → Finding
  | missingRepositories : Finding
  | repositoriesMustBeArray : Finding
  | repositoriesEmpty : Finding
  | repoNotObject : Nat → Finding
  | repoMissingPath : Nat → Finding
  | pathMustBeAbsolute : Json → Finding
  | duplicatePath : Json → Finding
  | pathDoesNotExist : Json → Finding
  | pathNotDirectory : Json → Finding
  | duplicateRepoName : Json → Finding
  | manifestsMustBeArray : Json → Finding
  | manifestNotObject : Nat → Json → Finding
  | manifestMissingField : Nat → String → Finding
  | unknownManifestType : Json → Finding
  | manifestPathShouldBeRelative : Json → Finding
  | manifestFileNotFound : String → Finding
  | manifestDataMustBeObject : Finding
  | npmMissingName : Finding
  | composerMissingName : Finding
  | cargoMissingName : Finding
  | timestampInFuture : Json → Finding
  | timestampsDiffer : Finding
  | invalidGeneratedAt : Json → Finding
  | noManifestsFound : Finding
  | invalidJson : Finding
  | failedToRead : Finding
  deriving DecidableEq

/-- Required metadata fields (line 61). -/
def REQUIRED_METADATA_FIELDS : List String :=
  ["schema_version", "generator", "generated_by", "timestamp", "melly_version"]

/-- Embedding of `validate_schema_structure(data)` (validate-init.py
lines 49-86). -/
def validate_schema_structure (data : Json) (parseTs : String → Option Int) :
    Bool × List Finding :=
  if !data.hasKey "metadata" then (false, [.missingMetadata])
  else
    let metadata := data.getD "metadata" .null
    let fieldErrs : List Finding := REQUIRED_METADATA_FIELDS.filterMap fun f =>
      if metadata.hasKey f then none else some (.missingMetadataKey f)
    let svErrs : List Finding :=
      match metadata.get? "schema_version" with
      | some sv => if !jsonSemverMatch sv then [.invalidSchemaVersion sv] else []
      | none => []
    let tsErrs : List Finding :=
      match metadata.get? "timestamp" with
      | some tv =>
          match parseJsonTs parseTs tv with
          | some _ => []
          | none => [.invalidTimestampFormat tv]
      | none => []
    let repoErrs : List Finding :=
      match data.get? "repositories" with
      | none => [.missingRepositories]
      | some (.arr rs) => if rs.isEmpty then [.repositoriesEmpty] else []
      | some _ => [.repositoriesMustBeArray]
    let errs := fieldErrs ++ svErrs ++ tsErrs ++ repoErrs
    (errs.isEmpty, errs)

/-- Body of the repository loop of validate_repository_paths (lines 96-132),
threading the `seen_paths` and `seen_names` sets. -/
def repoStep (pathExists isDir : String → Bool) (idx : Nat)
    (seenPaths seenNames : List Json) (repo : Json) :
    List Finding × List Finding × List Json × List Json :=
  if !repo.isObj then ([.repoNotObject idx], [], seenPaths, seenNames)
  else
    match repo.get? "path" with
    | none => ([.repoMissingPath idx], [], seenPaths, seenNames)
    | some p =>
      if !jsonIsAbs p then ([.pathMustBeAbsolute p], [], seenPaths, seenNames)
      else
        let dupErrs : List Finding :=
          if seenPaths.contains p then [.duplicatePath p] else []
        let seenPaths := addUnique seenPaths p
        let nameStep : List Finding × List Json :=
          match repo.get? "name" with
          | some n =>
              ((if seenNames.contains n then [.duplicateRepoName n] else []),
               addUnique seenNames n)
          | none => ([], seenNames)
        match p with
        | .str ps =>
          if !pathExists ps then
            (dupErrs ++ [.pathDoesNotExist p], [], seenPaths, seenNames)
          else
            let dirErrs : List Finding := if !isDir ps then [.pathNotDirectory p] else []
            (dupErrs ++ dirErrs, nameStep.1, seenPaths, nameStep.2)
        | _ => (dupErrs, [], seenPaths, seenNames)

/-- Iteration of validate_repository_paths over the repositories. -/
def reposLoop (pathExists isDir : String → Bool) :
    Nat → List Json → List Json → List Json → List Finding × List Finding × List Json × List Json
  | _, seenPaths, seenNames, [] => ([], [], seenPaths, seenNames)
  | idx, seenPaths, seenNames, r :: rest =>
      let r1 := repoStep pathExists isDir idx seenPaths seenNames r
      let r2 := reposLoop pathExists isDir (idx + 1) r1.2.2.1 r1.2.2.2 rest
      (r1.1 ++ r2.1, r1.2.1 ++ r2.2.1, r2.2.2)

/-- Embedding of `validate_repository_paths(repositories)` (lines 89-134). -/
def validate_repository_paths (repositories : List Json)
    (pathExists isDir : String → Bool) : Bool × List Finding × List Finding :=
  let r := reposLoop pathExists isDir 0 [] [] repositories
  (r.1.isEmpty, r.1, r.2.1)

/-- Required manifest fields (line 162). -/
def REQUIRED_MANIFEST_FIELDS : List String := ["type", "path", "data"]

/-- Body of the manifest loop of validate_package_manifests
(lines 156-201). -/
def manifestStep (pathExists : String → Bool) (repoName repoPath : Json)
    (idx : Nat) (manifest : Json) : List Finding × List Finding :=
  if !manifest.isObj then ([.manifestNotObject idx repoName], [])
  else
    let fieldErrs : List Finding := REQUIRED_MANIFEST_FIELDS.filterMap fun f =>
      if manifest.hasKey f then none else some (.manifestMissingField idx f)
    let typeWarns : List Finding :=
      match manifest.get? "type" with
      | some t => if !enumHas ALLOWED_MANIFEST_TYPES t then [.unknownManifestType t] else []
      | none => []
    let pathStep : List Finding × List Finding :=
      match manifest.get? "path" with
      | some mp =>
          let absErrs : List Finding :=
            if jsonIsAbs mp then [.manifestPathShouldBeRelative mp] else []
          let existWarns : List Finding :=
            match repoPath, mp with
            | .str rp, .str mps =>
                if !rp.isEmpty && !jsonIsAbs mp then
                  if !pathExists (pyJoin rp mps) then [.manifestFileNotFound (pyJoin rp mps)]
                  else []
                else []
            | _, _ => []
          (absErrs, existWarns)
      | none => ([], [])
    let dataStep : List Finding × List Finding :=
      match manifest.get? "data" with
      | some d =>
          if !d.isObj then ([.manifestDataMustBeObject], [])
          else
            let mtype := manifest.getD "type" (.str "")
            if mtype == .str "npm" then
              ([], if !d.hasKey "name" then [.npmMissingName] else [])
            else if mtype == .str "composer" then
              ([], if !d.hasKey "name" then [.composerMissingName] else [])
            else if mtype == .str "cargo" then
              ([], match d.get? "package" with
                   | some pk => if !pk.hasKey "name" then [.cargoMissingName] else []
                   | none => [])
            else ([], [])
      | none => ([], [])
    (fieldErrs ++ pathStep.1 ++ dataStep.1, typeWarns ++ pathStep.2 ++ dataStep.2)

/-- Iteration of validate_package_manifests over one repository's
manifests. -/
def manifestsLoop (pathExists : String → Bool) (repoName repoPath : Json) :
    Nat → List Json → List Finding × List Finding
  | _, [] => ([], [])
  | idx, m :: rest =>
      let r1 := manifestStep pathExists repoName repoPath idx m
      let r2 := manifestsLoop pathExists repoName repoPath (idx + 1) rest
      (r1.1 ++ r2.1, r1.2 ++ r2.2)

/-- Per-repository part of validate_package_manifests (lines 142-201). -/
def repoManifests (pathExists : String → Bool) (repo : Json) :
    List Finding × List Finding :=
  if !repo.isObj then ([], [])
  else
    match repo.get? "manifests" with
    | none => ([], [])
    | some manifests =>
        let repoName := repo.getD "name" (.str "unknown")
        if !manifests.isArr then ([.manifestsMustBeArray repoName], [])
        else manifestsLoop pathExists repoName (repo.getD "path" (.str "")) 0 manifests.pyElems

/-- Iteration of validate_package_manifests over the repositories. -/
def manifestsReposLoop (pathExists : String → Bool) :
    List Json → List Finding × List Finding
  | [] => ([], [])
  | r :: rest =>
      let r1 := repoManifests pathExists r
      let r2 := manifestsReposLoop pathExists rest
      (r1.1 ++ r2.1, r1.2 ++ r2.2)

/-- Embedding of `validate_package_manifests(repositories)`
(lines 137-203). -/
def validate_package_manifests (repositories : List Json)
    (pathExists : String → Bool) : Bool × List Finding × List Finding :=
  let r := manifestsReposLoop pathExists repositories
  (r.1.isEmpty, r.1, r.2)

/-- Embedding of `validate_timestamps(metadata)` (lines 206-236); `now`
models `datetime.now(timezone.utc)`.  The function always reports success;
a timestamp that fails to parse silently yields no warnings. -/
def validate_timestamps (metadata : Json) (parseTs : String → Option Int)
    (now : Int) : Bool × List Finding :=
  match metadata.get? "timestamp" with
  | none => (true, [])
  | some tv =>
      match parseJsonTs parseTs tv with
      | none => (true, [])
      | some t =>
          let futureWarns : List Finding := if now < t then [.timestampInFuture tv] else []
          let genWarns : List Finding :=
            match metadata.get? "generated_at" with
            | some gv =>
                match parseJsonTs parseTs gv with
                | some g => if 3600 < (t - g).natAbs then [.timestampsDiffer] else []
                | none => [.invalidGeneratedAt gv]
            | none => []
          (true, futureWarns ++ genWarns)

/-- Total manifest count of main (line 305): `len(repo.get("manifests", []))`
summed over the repositories (a non-sized value would raise in Python,
outside the modelled envelope). -/
def totalManifests (repositories : List Json) : Nat :=
  (repositories.map fun r => ((r.getD "manifests" (.arr [])).pyLen).getD 0).sum

/-- Embedding of `main()` (validate-init.py lines 239-319): exit code,
emitted errors and emitted warnings.  When the init.json file does not exist
the script prints a skip notice and returns 0 without validating anything. -/
def main (initFile : FileState) (parseTs : String → Option Int)
    (pathExists isDir : String → Bool) (now : Int) :
    Nat × List Finding × List Finding :=
  match initFile with
  | .missing => (0, [], [])
  | .malformed => (2, [.invalidJson], [])
  | .readFailure => (2, [.failedToRead], [])
  | .content data =>
    let r1 := validate_schema_structure data parseTs
    if !r1.1 then (2, r1.2, [])
    else
      let repositories := (data.getD "repositories" (.arr [])).pyElems
      let r2 := validate_repository_paths repositories pathExists isDir
      let r3 := validate_package_manifests repositories pathExists
      let r4 := validate_timestamps (data.getD "metadata" (.obj [])) parseTs now
      let noManifestWarns : List Finding :=
        if totalManifests repositories == 0 then [.noManifestsFound] else []
      let has_errors := !r2.1 || !r3.1
      let has_warnings :=
        !r2.2.2.isEmpty || !r3.2.2.isEmpty || !r4.2.isEmpty || !noManifestWarns.isEmpty
      (if has_errors then 2 else if has_warnings then 1 else 0,
       r2.2.1 ++ r3.2.1,
       r2.2.2 ++ r3.2.2 ++ r4.2 ++ noManifestWarns)

end InitV

/-- Recognizer for the cycle warning of validate-c1-systems.py. -/
def C1V.Finding.isCircular : C1V.Finding → Bool
  | .circularDependency _ => true
  | _ => false

/-- Recognizer for the invalid-severity error of validate-c1-systems.py. -/
def C1V.Finding.isInvalidSeverity : C1V.Finding → Bool
  | .invalidSeverity _ _ => true
  | _ => false

/-- Recognizer for the system-not-found error of validate-c2-containers.py. -/
def C2V.Finding.isSystemNotFound : C2V.Finding → Bool
  | .containerSystemNotFound _ _ => true
  | _ => false

/-- Recognizer for the container-not-found error of
validate-c3-components.py. -/
def C3V.Finding.isContainerNotFound : C3V.Finding → Bool
  | .componentContainerNotFound _ _ => true
  | _ => false

/-- Recognizer for the invalid-coupling error of validate-c3-components.py. -/
def C3V.Finding.isInvalidCoupling : C3V.Finding → Bool
  | .invalidCoupling _ _ => true
  | _ => false

/-- Recognizer for the repository-not-found warning of
validate-c1-systems.py. -/
def C1V.Finding.isRepositoryNotFound : C1V.Finding → Bool
  | .repositoryNotFound _ _ => true
  | _ => false

namespace Fix

/-- Concrete timestamp parser used by witnesses and counterexamples: a small
table of parseable timestamp strings. -/
def tsTable (s : String) : Option Int :=
  if s = "0" then some 0
  else if s = "1" then some 1
  else if s = "2" then some 2
  else if s = "3" then some 3
  else none

/-- An init.json parent document with timestamp 1 and one repository. -/
def initParent : Json :=
  .obj [("metadata", .obj [("timestamp", .str "1")]),
        ("repositories", .arr [.obj [("name", .str "repo-a"), ("path", .str "/repo-a")]])]

/-- A c1-systems.json parent document with timestamp 1 and one system. -/
def c1Parent : Json :=
  .obj [("metadata", .obj [("timestamp", .str "1")]),
        ("systems", .arr [.obj [("id", .str "s1")]])]

/-- A c2-containers.json parent document with timestamp 1 and one
container. -/
def c2Parent : Json :=
  .obj [("metadata", .obj [("timestamp", .str "1")]),
        ("containers", .arr [.obj [("id", .str "c1")]])]

/-- A schema-clean C1 system named `name` relating to `next`. -/
def scSystem (name next : String) : Json :=
  .obj [("id", .str name), ("name", .str name), ("type", .str "api-service"),
        ("repositories", .arr [.str "repo-a"]),
        ("description", .str "a system description"),
        ("observations", .arr [.obj [("id", .str (name ++ "-o1")),
                                     ("category", .str "technical"),
                                     ("description", .str "an observation text")]]),
        ("relations", .arr [.obj [("id", .str (name ++ "-r1")),
                                  ("source", .str name), ("target", .str next),
                                  ("type", .str "uses"),
                                  ("description", .str "a relation description")]])]

/-- Scenario C: three schema-clean systems related a→b→c→a. -/
def scenarioC : Json :=
  .obj [("metadata", .obj [("timestamp", .str "2")]),
        ("systems", .arr [scSystem "a" "b", scSystem "b" "c", scSystem "c" "a"])]

/-- A schema-clean C2 container named `name` relating to `other`. -/
def cxContainer (name other : String) : Json :=
  .obj [("id", .str name), ("name", .str name), ("type", .str "api"),
        ("system_id", .str "s1"), ("responsibility", .str "handles requests"),
        ("technology", .obj [("primary_language", .str "python"),
                             ("framework", .str "flask")]),
        ("runtime", .obj [("environment", .str "server"), ("platform", .str "linux"),
                          ("containerized", .bool false)]),
        ("relations", .arr [.obj [("target", .str other), ("type", .str "uses"),
                                  ("description", .str "a relation description")]])]

/-- A C1 document whose timestamp 2 is strictly newer than its parent's
timestamp 1 but whose `metadata.parent.timestamp` declares a mismatching
value. -/
def shadowDoc : Json :=
  .obj [("metadata", .obj [("timestamp", .str "2"),
                           ("parent", .obj [("timestamp", .str "0")])])]

/-- A schema-clean C2 document whose two containers relate in a cycle
a→b→a. -/
def c2Cycle : Json :=
  .obj [("metadata", .obj [("timestamp", .str "2")]),
        ("containers", .arr [cxContainer "a" "b", cxContainer "b" "a"])]

end Fix

section LoopLemmas

variable {F S : Type}

theorem stLoop_nil (step : Nat → S → Json → List F × List F × S) (idx : Nat) (st : S) :
    stLoop step idx st [] = ([], [], st) := rfl

theorem stLoop_cons (step : Nat → S → Json → List F × List F × S) (idx : Nat) (st : S)
    (x : Json) (rest : List Json) :
    stLoop step idx st (x :: rest) =
      ((step idx st x).1 ++ (stLoop step (idx + 1) (step idx st x).2.2 rest).1,
       (step idx st x).2.1 ++ (stLoop step (idx + 1) (step idx st x).2.2 rest).2.1,
       (stLoop step (idx + 1) (step idx st x).2.2 rest).2.2) := rfl

theorem stLoop_mem_errors (step : Nat → S → Json → List F × List F × S)
    (c : Json) (f : F) (hstep : ∀ idx st, f ∈ (step idx st c).1) :
    ∀ (l : List Json), c ∈ l → ∀ idx st, f ∈ (stLoop step idx st l).1 := by
  intro l
  induction l with
  | nil => intro h; cases h
  | cons x rest ih =>
      intro h idx st
      rw [stLoop_cons]
      rcases List.mem_cons.mp h with rfl | hm
      · exact List.mem_append.mpr (Or.inl (hstep idx st))
      · exact List.mem_append.mpr (Or.inr (ih hm _ _))

theorem stLoop_mem_warns (step : Nat → S → Json → List F × List F × S)
    (c : Json) (f : F) (hstep : ∀ idx st, f ∈ (step idx st c).2.1) :
    ∀ (l : List Json), c ∈ l → ∀ idx st, f ∈ (stLoop step idx st l).2.1 := by
  intro l
  induction l with
  | nil => intro h; cases h
  | cons x rest ih =>
      intro h idx st
      rw [stLoop_cons]
      rcases List.mem_cons.mp h with rfl | hm
      · exact List.mem_append.mpr (Or.inl (hstep idx st))
      · exact List.mem_append.mpr (Or.inr (ih hm _ _))

theorem stLoop_mem_errors_inv (step : Nat → S → Json → List F × List F × S)
    (P : S → Prop) (c : Json) (f : F)
    (hpres : ∀ idx st x, P st → P ((step idx st x).2.2))
    (hwit : ∀ idx st, P st → f ∈ (step idx st c).1) :
    ∀ (l : List Json), c ∈ l → ∀ idx st, P st → f ∈ (stLoop step idx st l).1 := by
  intro l
  induction l with
  | nil => intro h; cases h
  | cons x rest ih =>
      intro h idx st hP
      rw [stLoop_cons]
      rcases List.mem_cons.mp h with rfl | hm
      · exact List.mem_append.mpr (Or.inl (hwit idx st hP))
      · exact List.mem_append.mpr (Or.inr (ih hm _ _ (hpres idx st x hP)))

theorem stLoop_mem_errors_after (step : Nat → S → Json → List F × List F × S)
    (P : S → Prop) (o1 c : Json) (f : F)
    (hpres : ∀ idx st x, P st → P ((step idx st x).2.2))
    (hestab : ∀ idx st, P ((step idx st o1).2.2))
    (hwit : ∀ idx st, P st → f ∈ (step idx st c).1)
    (l2 : List Json) (hc : c ∈ l2) :
    ∀ (l1 : List Json) (idx : Nat) (st : S),
      f ∈ (stLoop step idx st (l1 ++ o1 :: l2)).1 := by
  intro l1
  induction l1 with
  | nil =>
      intro idx st
      rw [List.nil_append, stLoop_cons]
      exact List.mem_append.mpr
        (Or.inr (stLoop_mem_errors_inv step P c f hpres hwit l2 hc _ _ (hestab idx st)))
  | cons x rest ih =>
      intro idx st
      rw [List.cons_append, stLoop_cons]
      exact List.mem_append.mpr (Or.inr (ih _ _))

theorem stLoop_errors_forall (step : Nat → S → Json → List F × List F × S)
    (Q : F → Prop) (hstep : ∀ idx st x f, f ∈ (step idx st x).1 → Q f) :
    ∀ (l : List Json) (idx : Nat) (st : S) (f : F),
      f ∈ (stLoop step idx st l).1 → Q f := by
  intro l
  induction l with
  | nil => intro idx st f h; cases h
  | cons x rest ih =>
      intro idx st f h
      rw [stLoop_cons] at h
      rcases List.mem_append.mp h with h1 | h2
      · exact hstep _ _ _ _ h1
      · exact ih _ _ _ h2

theorem stLoop_warns_forall (step : Nat → S → Json → List F × List F × S)
    (Q : F → Prop) (hstep : ∀ idx st x f, f ∈ (step idx st x).2.1 → Q f) :
    ∀ (l : List Json) (idx : Nat) (st : S) (f : F),
      f ∈ (stLoop step idx st l).2.1 → Q f := by
  intro l
  induction l with
  | nil => intro idx st f h; cases h
  | cons x rest ih =>
      intro idx st f h
      rw [stLoop_cons] at h
      rcases List.mem_append.mp h with h1 | h2
      · exact hstep _ _ _ _ h1
      · exact ih _ _ _ h2

theorem eachLoop_cons (g : Json → List F × List F) (x : Json) (rest : List Json) :
    eachLoop g (x :: rest) =
      ((g x).1 ++ (eachLoop g rest).1, (g x).2 ++ (eachLoop g rest).2) := rfl

theorem eachLoop_mem_errors (g : Json → List F × List F) (c : Json) (f : F)
    (hf : f ∈ (g c).1) : ∀ (l : List Json), c ∈ l → f ∈ (eachLoop g l).1 := by
  intro l
  induction l with
  | nil => intro h; cases h
  | cons x rest ih =>
      intro h
      rw [eachLoop_cons]
      rcases List.mem_cons.mp h with rfl | hm
      · exact List.mem_append.mpr (Or.inl hf)
      · exact List.mem_append.mpr (Or.inr (ih hm))

theorem eachLoop_mem_warns (g : Json → List F × List F) (c : Json) (f : F)
    (hf : f ∈ (g c).2) : ∀ (l : List Json), c ∈ l → f ∈ (eachLoop g l).2 := by
  intro l
  induction l with
  | nil => intro h; cases h
  | cons x rest ih =>
      intro h
      rw [eachLoop_cons]
      rcases List.mem_cons.mp h with rfl | hm
      · exact List.mem_append.mpr (Or.inl hf)
      · exact List.mem_append.mpr (Or.inr (ih hm))

theorem eachLoop_errors_forall (g : Json → List F × List F) (Q : F → Prop)
    (hg : ∀ x f, f ∈ (g x).1 → Q f) :
    ∀ (l : List Json) (f : F), f ∈ (eachLoop g l).1 → Q f := by
  intro l
  induction l with
  | nil => intro f h; cases h
  | cons x rest ih =>
      intro f h
      rw [eachLoop_cons] at h
      rcases List.mem_append.mp h with h1 | h2
      · exact hg _ _ h1
      · exact ih _ h2

theorem eachLoop_warns_forall (g : Json → List F × List F) (Q : F → Prop)
    (hg : ∀ x f, f ∈ (g x).2 → Q f) :
    ∀ (l : List Json) (f : F), f ∈ (eachLoop g l).2 → Q f := by
  intro l
  induction l with
  | nil => intro f h; cases h
  | cons x rest ih =>
      intro f h
      rw [eachLoop_cons] at h
      rcases List.mem_append.mp h with h1 | h2
      · exact hg _ _ h1
      · exact ih _ h2

end LoopLemmas

theorem isEmpty_append3 {α : Type} (a b c : List α) :
    (a ++ b ++ c).isEmpty = (a.isEmpty && b.isEmpty && c.isEmpty) := by
  cases a <;> cases b <;> cases c <;> rfl

theorem isEmpty_append4 {α : Type} (a b c d : List α) :
    (a ++ b ++ c ++ d).isEmpty = (a.isEmpty && b.isEmpty && c.isEmpty && d.isEmpty) := by
  cases a <;> cases b <;> cases c <;> cases d <;> rfl

theorem exitOf (b2 b3 b4 c2 c3 c4 cx : Bool) :
    (if (!b2 || !b3 || !b4) then (2 : Nat)
     else if (!c2 || !c3 || !c4 || !cx) then 1 else 0) =
    (if (b2 && b3 && b4) then (if (c2 && c3 && c4 && cx) then 0 else 1) else 2) := by
  cases b2 <;> cases b3 <;> cases b4 <;> cases c2 <;> cases c3 <;> cases c4 <;> cases cx <;> rfl

theorem jsonContains_iff (l : List Json) (y : Json) : l.contains y = true ↔ y ∈ l :=
  List.elem_iff

theorem addUnique_contains (l : List Json) (x y : Json) (h : l.contains y = true) :
    (addUnique l x).contains y = true := by
  unfold addUnique
  split
  · exact h
  · rw [jsonContains_iff] at h ⊢
    exact List.mem_append.mpr (Or.inl h)

theorem addUnique_contains_self (l : List Json) (x : Json) :
    (addUnique l x).contains x = true := by
  unfold addUnique
  split
  · assumption
  · rw [jsonContains_iff]
    exact List.mem_append.mpr (Or.inr (List.mem_singleton.mpr rfl))

theorem truthy_of_elem {j : Json} {c : Json} (h : c ∈ j.pyElems) : j.truthy = true := by
  cases j with
  | null => cases h
  | bool b => cases h
  | num n => cases h
  | str s =>
      have hne : s.toList ≠ [] := by
        intro he
        rw [Json.pyElems, he] at h
        cases h
      have hf : s.isEmpty = false := by
        rw [Bool.eq_false_iff]
        intro he
        rw [String.isEmpty_iff s] at he
        subst he
        exact hne rfl
      rw [Json.truthy, hf]
      rfl
  | arr xs =>
      cases xs with
      | nil => cases h
      | cons a t => rfl
  | obj kvs =>
      cases kvs with
      | nil => cases h
      | cons a t => rfl

theorem C1V.validate_systems_valid (s : Json) (ir : List Json) :
    (C1V.validate_systems s ir).1 = (C1V.validate_systems s ir).2.1.isEmpty := by
  unfold C1V.validate_systems
  split <;> rfl

theorem C1V.validate_observations_valid_c1 (s : Json) :
    (C1V.validate_observations s).1 = (C1V.validate_observations s).2.1.isEmpty := rfl

theorem C1V.validate_relations_valid_c1 (s : Json) :
    (C1V.validate_relations s).1 = (C1V.validate_relations s).2.1.isEmpty := rfl

theorem C2V.validate_containers_valid (s : Json) (ids : List Json) :
    (C2V.validate_containers s ids).1 = (C2V.validate_containers s ids).2.1.isEmpty := by
  unfold C2V.validate_containers
  split <;> rfl

theorem C2V.validate_observations_valid_c2 (s : Json) :
    (C2V.validate_observations s).1 = (C2V.validate_observations s).2.1.isEmpty := rfl

theorem C2V.validate_relations_valid_c2 (s : Json) :
    (C2V.validate_relations s).1 = (C2V.validate_relations s).2.1.isEmpty := rfl

theorem C3V.validate_components_valid (s : Json) (ids : List Json) :
    (C3V.validate_components s ids).1 = (C3V.validate_components s ids).2.1.isEmpty := by
  unfold C3V.validate_components
  split <;> rfl

theorem C3V.validate_observations_valid_c3 (s : Json) :
    (C3V.validate_observations s).1 = (C3V.validate_observations s).2.1.isEmpty := rfl

theorem C3V.validate_relations_valid_c3 (s : Json) :
    (C3V.validate_relations s).1 = (C3V.validate_relations s).2.1.isEmpty := rfl

/-- Claim C1: for every validation run that passes the lineage stage, the
process exit code is 2 if any checker accumulated at least one error, else 1
if at least one warning was accumulated, else 0; the mapping is identical for
the C1, C2 and C3 validators.  Errors and warnings are read off the run's
emitted streams. -/
theorem claim_C1_exit_code_mapping :
    (∀ (data : Json) (fs : FileState) (pts : String → Option Int),
      (C1V.validate_parent_reference data fs pts).1 = true →
      (C1V.main (.parsed data) fs pts).1 =
        (if (C1V.main (.parsed data) fs pts).2.1.isEmpty then
          (if (C1V.main (.parsed data) fs pts).2.2.isEmpty then 0 else 1)
         else 2)) ∧
    (∀ (data : Json) (fs : FileState) (pts : String → Option Int),
      (C2V.validate_parent_reference data fs pts).1 = true →
      (C2V.main (.parsed data) fs pts).1 =
        (if (C2V.main (.parsed data) fs pts).2.1.isEmpty then
          (if (C2V.main (.parsed data) fs pts).2.2.isEmpty then 0 else 1)
         else 2)) ∧
    (∀ (data : Json) (fs : FileState) (pts : String → Option Int),
      (C3V.validate_parent_reference data fs pts).1 = true →
      (C3V.main (.parsed data) fs pts).1 =
        (if (C3V.main (.parsed data) fs pts).2.1.isEmpty then
          (if (C3V.main (.parsed data) fs pts).2.2.isEmpty then 0 else 1)
         else 2)) := by
  refine ⟨?_, ?_, ?_⟩
  · intro data fs pts h
    simp only [C1V.main, h, Bool.not_true, Bool.false_eq_true, if_false]
    rw [C1V.validate_systems_valid, C1V.validate_observations_valid_c1,
        C1V.validate_relations_valid_c1, isEmpty_append3, isEmpty_append4]
    exact exitOf _ _ _ _ _ _ _
  · intro data fs pts h
    simp only [C2V.main, h, Bool.not_true, Bool.false_eq_true, if_false]
    rw [C2V.validate_containers_valid, C2V.validate_observations_valid_c2,
        C2V.validate_relations_valid_c2, isEmpty_append3, isEmpty_append4]
    exact exitOf _ _ _ _ _ _ _
  · intro data fs pts h
    simp only [C3V.main, h, Bool.not_true, Bool.false_eq_true, if_false]
    rw [C3V.validate_components_valid, C3V.validate_observations_valid_c3,
        C3V.validate_relations_valid_c3, isEmpty_append3, isEmpty_append4]
    exact exitOf _ _ _ _ _ _ _

/-- Witness for claim C1 at a concrete lineage-passing run. -/
theorem claim_C1_exit_code_mapping_witness :
    (C1V.validate_parent_reference Fix.scenarioC (.content Fix.initParent) Fix.tsTable).1 = true ∧
    (C1V.main (.parsed Fix.scenarioC) (.content Fix.initParent) Fix.tsTable).1 =
      (if (C1V.main (.parsed Fix.scenarioC) (.content Fix.initParent) Fix.tsTable).2.1.isEmpty then
        (if (C1V.main (.parsed Fix.scenarioC) (.content Fix.initParent) Fix.tsTable).2.2.isEmpty
         then 0 else 1)
       else 2) :=
  ⟨by decide,
   claim_C1_exit_code_mapping.1 Fix.scenarioC (.content Fix.initParent) Fix.tsTable (by decide)⟩

/-- Claim C4, corrected: for the three layer validators, malformed or
unreadable standard input and a missing, undecodable or unreadable parent
document are immediately terminal with exit code 2 and only the input-error
finding emitted; the init validator exits 2 on a malformed or unreadable
init.json but, when init.json does not exist, skips validation and exits 0. -/
theorem claim_C4_input_errors :
    (∀ (fs : FileState) (pts : String → Option Int),
      C1V.main .malformed fs pts = (2, [.invalidJson], []) ∧
      C1V.main .readFailure fs pts = (2, [.failedToReadInput], []) ∧
      C2V.main .malformed fs pts = (2, [.invalidJson], []) ∧
      C2V.main .readFailure fs pts = (2, [.failedToReadInput], []) ∧
      C3V.main .malformed fs pts = (2, [.invalidJson], []) ∧
      C3V.main .readFailure fs pts = (2, [.failedToReadInput], [])) ∧
    (∀ (data : Json) (pts : String → Option Int),
      C1V.main (.parsed data) .missing pts =
        (2, [.parentFileNotFound], [.recommendationRunInit]) ∧
      C1V.main (.parsed data) .malformed pts = (2, [.failedToReadParentFile], []) ∧
      C1V.main (.parsed data) .readFailure pts = (2, [.failedToReadParentFile], []) ∧
      C2V.main (.parsed data) .missing pts =
        (2, [.parentFileNotFound], [.recommendationRunC1]) ∧
      C2V.main (.parsed data) .malformed pts = (2, [.failedToReadParentFile], []) ∧
      C2V.main (.parsed data) .readFailure pts = (2, [.failedToReadParentFile], []) ∧
      C3V.main (.parsed data) .missing pts =
        (2, [.parentFileNotFound], [.recommendationRunC2]) ∧
      C3V.main (.parsed data) .malformed pts = (2, [.failedToReadParentFile], []) ∧
      C3V.main (.parsed data) .readFailure pts = (2, [.failedToReadParentFile], [])) ∧
    (∀ (pts : String → Option Int) (pe isd : String → Bool) (now : Int),
      InitV.main .malformed pts pe isd now = (2, [.invalidJson], []) ∧
      InitV.main .readFailure pts pe isd now = (2, [.failedToRead], []) ∧
      InitV.main .missing pts pe isd now = (0, [], [])) :=
  ⟨fun _ _ => ⟨rfl, rfl, rfl, rfl, rfl, rfl⟩,
   fun _ _ => ⟨rfl, rfl, rfl, rfl, rfl, rfl, rfl, rfl, rfl⟩,
   fun _ _ _ _ => ⟨rfl, rfl, rfl⟩⟩

/-- Counterexample to claim C4 as stated: when its init.json file does not
exist, the init validator does not exit 2 — it skips validation and exits 0
with no findings. -/
theorem claim_C4_counterexample :
    InitV.main .missing Fix.tsTable (fun _ => true) (fun _ => true) 100 = (0, [], []) := rfl

/-- Counterexample to claim C2 as stated: a C1 document whose timestamp (2)
is strictly greater than its parent's timestamp (1) still fails the lineage
check when its `metadata.parent.timestamp` mismatches the parent's value,
and the run exits 2. -/
theorem claim_C2_counterexample :
    Fix.tsTable "2" = some 2 ∧ Fix.tsTable "1" = some 1 ∧ ((1 : Int) < 2) ∧
    (C1V.validate_parent_reference Fix.shadowDoc (.content Fix.initParent) Fix.tsTable).1 =
      false ∧
    (C1V.main (.parsed Fix.shadowDoc) (.content Fix.initParent) Fix.tsTable).1 = 2 := by
  decide

/-- Claim C3: whenever the lineage check fails, the run stops at once with
exit code 2 and the emitted findings are exactly the lineage findings — the
schema, referential-integrity and cycle stages contribute nothing; and
whenever the lineage check passes, every downstream stage contributes its
findings to the run's output, so lineage is the only stage that
short-circuits.  Stated for each of the three layer validators. -/
theorem claim_C3_lineage_short_circuit :
    (∀ (data : Json) (fs : FileState) (pts : String → Option Int),
      ((C1V.validate_parent_reference data fs pts).1 = false →
        C1V.main (.parsed data) fs pts =
          (2, (C1V.validate_parent_reference data fs pts).2.filter
                (fun e => !C1V.isRecommendation e),
              (C1V.validate_parent_reference data fs pts).2.filter C1V.isRecommendation)) ∧
      ((C1V.validate_parent_reference data fs pts).1 = true →
        (C1V.main (.parsed data) fs pts).2.1 =
          (C1V.validate_systems (data.getD "systems" (.arr [])) (C1V.getInitRepos fs)).2.1 ++
          (C1V.validate_observations (data.getD "systems" (.arr []))).2.1 ++
          (C1V.validate_relations (data.getD "systems" (.arr []))).2.1 ∧
        (C1V.main (.parsed data) fs pts).2.2 =
          (C1V.validate_systems (data.getD "systems" (.arr [])) (C1V.getInitRepos fs)).2.2 ++
          (C1V.validate_observations (data.getD "systems" (.arr []))).2.2 ++
          (C1V.validate_relations (data.getD "systems" (.arr []))).2.2 ++
          C1V.trailingWarns (data.getD "systems" (.arr [])).pyElems)) ∧
    (∀ (data : Json) (fs : FileState) (pts : String → Option Int),
      ((C2V.validate_parent_reference data fs pts).1 = false →
        C2V.main (.parsed data) fs pts =
          (2, (C2V.validate_parent_reference data fs pts).2.1.filter
                (fun e => !C2V.isRecommendation e),
              (C2V.validate_parent_reference data fs pts).2.1.filter C2V.isRecommendation)) ∧
      ((C2V.validate_parent_reference data fs pts).1 = true →
        (C2V.main (.parsed data) fs pts).2.1 =
          (C2V.validate_containers (data.getD "containers" (.arr []))
            (C2V.getC1SystemIds fs)).2.1 ++
          (C2V.validate_observations (data.getD "containers" (.arr []))).2.1 ++
          (C2V.validate_relations (data.getD "containers" (.arr []))).2.1 ∧
        (C2V.main (.parsed data) fs pts).2.2 =
          (C2V.validate_containers (data.getD "containers" (.arr []))
            (C2V.getC1SystemIds fs)).2.2 ++
          (C2V.validate_observations (data.getD "containers" (.arr []))).2.2 ++
          (C2V.validate_relations (data.getD "containers" (.arr []))).2.2 ++
          C2V.trailingWarns (C2V.getC1SystemIds fs) (data.getD "containers" (.arr [])).pyElems)) ∧
    (∀ (data : Json) (fs : FileState) (pts : String → Option Int),
      ((C3V.validate_parent_reference data fs pts).1 = false →
        C3V.main (.parsed data) fs pts =
          (2, (C3V.validate_parent_reference data fs pts).2.filter
                (fun e => !C3V.isRecommendation e),
              (C3V.validate_parent_reference data fs pts).2.filter C3V.isRecommendation)) ∧
      ((C3V.validate_parent_reference data fs pts).1 = true →
        (C3V.main (.parsed data) fs pts).2.1 =
          (C3V.validate_components (data.getD "components" (.arr []))
            (C3V.getC2ContainerIds fs)).2.1 ++
          (C3V.validate_observations (data.getD "components" (.arr []))).2.1 ++
          (C3V.validate_relations (data.getD "components" (.arr []))).2.1 ∧
        (C3V.main (.parsed data) fs pts).2.2 =
          (C3V.validate_components (data.getD "components" (.arr []))
            (C3V.getC2ContainerIds fs)).2.2 ++
          (C3V.validate_observations (data.getD "components" (.arr []))).2.2 ++
          (C3V.validate_relations (data.getD "components" (.arr []))).2.2 ++
          C3V.trailingWarns (C3V.getC2ContainerIds fs)
            (data.getD "components" (.arr [])).pyElems)) := by
  refine ⟨fun data fs pts => ⟨?_, ?_⟩, fun data fs pts => ⟨?_, ?_⟩, fun data fs pts => ⟨?_, ?_⟩⟩
  · intro h
    simp [C1V.main, h]
  · intro h
    simp [C1V.main, h]
  · intro h
    simp [C2V.main, h]
  · intro h
    simp [C2V.main, h]
  · intro h
    simp [C3V.main, h]
  · intro h
    simp [C3V.main, h]

/-- Witness for claim C3: the failing branch at a run whose parent file is
missing, and the passing branch at scenario C. -/
theorem claim_C3_lineage_short_circuit_witness :
    (C1V.main (.parsed Fix.scenarioC) .missing Fix.tsTable =
      (2, (C1V.validate_parent_reference Fix.scenarioC .missing Fix.tsTable).2.filter
            (fun e => !C1V.isRecommendation e),
          (C1V.validate_parent_reference Fix.scenarioC .missing Fix.tsTable).2.filter
            C1V.isRecommendation)) ∧
    (C1V.main (.parsed Fix.scenarioC) (.content Fix.initParent) Fix.tsTable).2.1 =
      (C1V.validate_systems (Fix.scenarioC.getD "systems" (.arr []))
        (C1V.getInitRepos (.content Fix.initParent))).2.1 ++
      (C1V.validate_observations (Fix.scenarioC.getD "systems" (.arr []))).2.1 ++
      (C1V.validate_relations (Fix.scenarioC.getD "systems" (.arr []))).2.1 :=
  ⟨(claim_C3_lineage_short_circuit.1 Fix.scenarioC .missing Fix.tsTable).1 (by decide),
   ((claim_C3_lineage_short_circuit.1 Fix.scenarioC (.content Fix.initParent) Fix.tsTable).2
      (by decide)).1⟩

theorem C1V.vpr_eval_c1 (data init_data md pv : Json) (ds : String) (d p : Int)
    (pts : String → Option Int)
    (h1 : ((init_data.get? "metadata").getD (.obj [])).get? "timestamp" = some pv)
    (h2 : pv.truthy = true)
    (h3 : data.get? "metadata" = some md)
    (h5 : C1V.parentShadowMismatch md pv = false)
    (h4 : md.get? "timestamp" = some (.str ds))
    (h6 : pts ds = some d)
    (h7 : parseJsonTs pts pv = some p) :
    C1V.validate_parent_reference data (.content init_data) pts =
      (if d ≤ p then
        (false, [.timestampMustBeNewer, .newerParentInfo pv, .newerCurrentInfo (.str ds),
                 .recommendationGenerateAfterParent])
       else (true, [])) := by
  have h6a : parseJsonTs pts (.str ds) = some d := by simpa [parseJsonTs] using h6
  simp [C1V.validate_parent_reference, h1, h2, h3, h4, h5, h6a, h7, truthyOpt,
    Json.hasKey, Json.getD]

theorem C2V.vpr_eval_c2 (data c1_data md pv : Json) (ds : String) (d p : Int)
    (pts : String → Option Int)
    (h1 : ((c1_data.get? "metadata").getD (.obj [])).get? "timestamp" = some pv)
    (h2 : pv.truthy = true)
    (h3 : data.get? "metadata" = some md)
    (h4 : md.get? "timestamp" = some (.str ds))
    (h6 : pts ds = some d)
    (h7 : parseJsonTs pts pv = some p) :
    C2V.validate_parent_reference data (.content c1_data) pts =
      (if d ≤ p then
        (false, [.timestampMustBeNewer, .newerParentInfo pv, .newerCurrentInfo (.str ds)],
         .str "")
       else (true, [], pv)) := by
  have h6a : parseJsonTs pts (.str ds) = some d := by simpa [parseJsonTs] using h6
  simp [C2V.validate_parent_reference, h1, h2, h3, h4, h6a, h7, truthyOpt,
    Json.hasKey, Json.getD]

theorem C3V.vpr_eval_c3 (data c2_data md pv : Json) (ds : String) (d p : Int)
    (pts : String → Option Int)
    (h1 : ((c2_data.get? "metadata").getD (.obj [])).get? "timestamp" = some pv)
    (h2 : pv.truthy = true)
    (h3 : data.get? "metadata" = some md)
    (h4 : md.get? "timestamp" = some (.str ds))
    (h6 : pts ds = some d)
    (h7 : parseJsonTs pts pv = some p) :
    C3V.validate_parent_reference data (.content c2_data) pts =
      (if d ≤ p then
        (false, [.timestampMustBeNewer, .newerParentInfo pv, .newerCurrentInfo (.str ds)])
       else (true, [])) := by
  have h6a : parseJsonTs pts (.str ds) = some d := by simpa [parseJsonTs] using h6
  simp [C3V.validate_parent_reference, h1, h2, h3, h4, h6a, h7, truthyOpt,
    Json.hasKey, Json.getD]

/-- Claim C2, corrected: for a layer document with valid JSON whose parent
exists, parses, and carries a truthy metadata.timestamp, and which itself
carries metadata with a string metadata.timestamp that parses — and, for the
C1 validator, declares no metadata.parent.timestamp differing from the
parent's — the lineage check returns ok if and only if the document's
timestamp is strictly greater than the parent's; when the two timestamps are
equal the run exits 2.  Stated for the C1, C2 and C3 validators. -/
theorem claim_C2_lineage_iff :
    (∀ (data init_data md pv : Json) (ds : String) (d p : Int)
        (pts : String → Option Int),
      ((init_data.get? "metadata").getD (.obj [])).get? "timestamp" = some pv →
      pv.truthy = true →
      data.get? "metadata" = some md →
      C1V.parentShadowMismatch md pv = false →
      md.get? "timestamp" = some (.str ds) →
      pts ds = some d →
      parseJsonTs pts pv = some p →
      ((C1V.validate_parent_reference data (.content init_data) pts).1 = true ↔ p < d) ∧
      (d = p → (C1V.main (.parsed data) (.content init_data) pts).1 = 2)) ∧
    (∀ (data c1_data md pv : Json) (ds : String) (d p : Int)
        (pts : String → Option Int),
      ((c1_data.get? "metadata").getD (.obj [])).get? "timestamp" = some pv →
      pv.truthy = true →
      data.get? "metadata" = some md →
      md.get? "timestamp" = some (.str ds) →
      pts ds = some d →
      parseJsonTs pts pv = some p →
      ((C2V.validate_parent_reference data (.content c1_data) pts).1 = true ↔ p < d) ∧
      (d = p → (C2V.main (.parsed data) (.content c1_data) pts).1 = 2)) ∧
    (∀ (data c2_data md pv : Json) (ds : String) (d p : Int)
        (pts : String → Option Int),
      ((c2_data.get? "metadata").getD (.obj [])).get? "timestamp" = some pv →
      pv.truthy = true →
      data.get? "metadata" = some md →
      md.get? "timestamp" = some (.str ds) →
      pts ds = some d →
      parseJsonTs pts pv = some p →
      ((C3V.validate_parent_reference data (.content c2_data) pts).1 = true ↔ p < d) ∧
      (d = p → (C3V.main (.parsed data) (.content c2_data) pts).1 = 2)) := by
  refine ⟨?_, ?_, ?_⟩
  · intro data init_data md pv ds d p pts h1 h2 h3 h5 h4 h6 h7
    have hv := C1V.vpr_eval_c1 data init_data md pv ds d p pts h1 h2 h3 h5 h4 h6 h7
    constructor
    · rw [hv]
      rcases le_or_lt d p with hdp | hdp
      · simp [hdp]
      · simp [not_le.mpr hdp, hdp]
    · intro heq
      have hlin : (C1V.validate_parent_reference data (.content init_data) pts).1 = false := by
        rw [hv, if_pos (le_of_eq heq)]
      simp [C1V.main, hlin]
  · intro data c1_data md pv ds d p pts h1 h2 h3 h4 h6 h7
    have hv := C2V.vpr_eval_c2 data c1_data md pv ds d p pts h1 h2 h3 h4 h6 h7
    constructor
    · rw [hv]
      rcases le_or_lt d p with hdp | hdp
      · simp [hdp]
      · simp [not_le.mpr hdp, hdp]
    · intro heq
      have hlin : (C2V.validate_parent_reference data (.content c1_data) pts).1 = false := by
        rw [hv, if_pos (le_of_eq heq)]
      simp [C2V.main, hlin]
  · intro data c2_data md pv ds d p pts h1 h2 h3 h4 h6 h7
    have hv := C3V.vpr_eval_c3 data c2_data md pv ds d p pts h1 h2 h3 h4 h6 h7
    constructor
    · rw [hv]
      rcases le_or_lt d p with hdp | hdp
      · simp [hdp]
      · simp [not_le.mpr hdp, hdp]
    · intro heq
      have hlin : (C3V.validate_parent_reference data (.content c2_data) pts).1 = false := by
        rw [hv, if_pos (le_of_eq heq)]
      simp [C3V.main, hlin]

/-- Witness for the corrected claim C2 at concrete runs: a C1 document with
timestamp 2 over a parent with timestamp 1 passes (1 < 2), and a C2 document
whose timestamp equals its parent's exits 2. -/
theorem claim_C2_lineage_iff_witness :
    ((C1V.validate_parent_reference
        (.obj [("metadata", .obj [("timestamp", .str "2")])])
        (.content Fix.initParent) Fix.tsTable).1 = true ↔ (1 : Int) < 2) ∧
    ((C2V.validate_parent_reference
        (.obj [("metadata", .obj [("timestamp", .str "1")])])
        (.content Fix.c1Parent) Fix.tsTable).1 = true ↔ (1 : Int) < 1) ∧
    (C2V.main (.parsed (.obj [("metadata", .obj [("timestamp", .str "1")])]))
        (.content Fix.c1Parent) Fix.tsTable).1 = 2 := by
  have w1 := (claim_C2_lineage_iff.1
    (.obj [("metadata", .obj [("timestamp", .str "2")])]) Fix.initParent
    (.obj [("timestamp", .str "2")]) (.str "1") "2" 2 1 Fix.tsTable
    (by decide) (by decide) (by decide) (by decide) (by decide) (by decide) (by decide)).1
  have w2 := claim_C2_lineage_iff.2.1
    (.obj [("metadata", .obj [("timestamp", .str "1")])]) Fix.c1Parent
    (.obj [("timestamp", .str "1")]) (.str "1") "1" 1 1 Fix.tsTable
    (by decide) (by decide) (by decide) (by decide) (by decide) (by decide)
  exact ⟨w1, w2.1, w2.2 rfl⟩

/-- Claim C10: a layer document having a metadata object without a
metadata.timestamp key passes the lineage check with no findings — the strict
timestamp ordering is silently skipped — provided the parent file exists,
parses and carries a truthy metadata.timestamp (and, for C1, no mismatching
metadata.parent.timestamp is declared); the run then proceeds to the
downstream checks, whose findings fully populate its error stream.  Stated
for the C1, C2 and C3 validators. -/
theorem claim_C10_missing_timestamp_skipped :
    (∀ (data init_data md pv : Json) (pts : String → Option Int),
      ((init_data.get? "metadata").getD (.obj [])).get? "timestamp" = some pv →
      pv.truthy = true →
      data.get? "metadata" = some md →
      C1V.parentShadowMismatch md pv = false →
      md.get? "timestamp" = none →
      C1V.validate_parent_reference data (.content init_data) pts = (true, []) ∧
      (C1V.main (.parsed data) (.content init_data) pts).2.1 =
        (C1V.validate_systems (data.getD "systems" (.arr []))
          (C1V.getInitRepos (.content init_data))).2.1 ++
        (C1V.validate_observations (data.getD "systems" (.arr []))).2.1 ++
        (C1V.validate_relations (data.getD "systems" (.arr []))).2.1) ∧
    (∀ (data c1_data md pv : Json) (pts : String → Option Int),
      ((c1_data.get? "metadata").getD (.obj [])).get? "timestamp" = some pv →
      pv.truthy = true →
      data.get? "metadata" = some md →
      md.get? "timestamp" = none →
      C2V.validate_parent_reference data (.content c1_data) pts = (true, [], pv) ∧
      (C2V.main (.parsed data) (.content c1_data) pts).2.1 =
        (C2V.validate_containers (data.getD "containers" (.arr []))
          (C2V.getC1SystemIds (.content c1_data))).2.1 ++
        (C2V.validate_observations (data.getD "containers" (.arr []))).2.1 ++
        (C2V.validate_relations (data.getD "containers" (.arr []))).2.1) ∧
    (∀ (data c2_data md pv : Json) (pts : String → Option Int),
      ((c2_data.get? "metadata").getD (.obj [])).get? "timestamp" = some pv →
      pv.truthy = true →
      data.get? "metadata" = some md →
      md.get? "timestamp" = none →
      C3V.validate_parent_reference data (.content c2_data) pts = (true, []) ∧
      (C3V.main (.parsed data) (.content c2_data) pts).2.1 =
        (C3V.validate_components (data.getD "components" (.arr []))
          (C3V.getC2ContainerIds (.content c2_data))).2.1 ++
        (C3V.validate_observations (data.getD "components" (.arr []))).2.1 ++
        (C3V.validate_relations (data.getD "components" (.arr []))).2.1) := by
  refine ⟨?_, ?_, ?_⟩
  · intro data init_data md pv pts h1 h2 h3 h5 h4
    have hv : C1V.validate_parent_reference data (.content init_data) pts = (true, []) := by
      simp [C1V.validate_parent_reference, h1, h2, h3, h4, h5, truthyOpt,
        Json.hasKey, Json.getD]
    exact ⟨hv, by simp [C1V.main, hv]⟩
  · intro data c1_data md pv pts h1 h2 h3 h4
    have hv : C2V.validate_parent_reference data (.content c1_data) pts = (true, [], pv) := by
      simp [C2V.validate_parent_reference, h1, h2, h3, h4, truthyOpt,
        Json.hasKey, Json.getD]
    exact ⟨hv, by simp [C2V.main, hv]⟩
  · intro data c2_data md pv pts h1 h2 h3 h4
    have hv : C3V.validate_parent_reference data (.content c2_data) pts = (true, []) := by
      simp [C3V.validate_parent_reference, h1, h2, h3, h4, truthyOpt,
        Json.hasKey, Json.getD]
    exact ⟨hv, by simp [C3V.main, hv]⟩

/-- Witness for claim C10: a C1 document with metadata but no timestamp key
passes lineage against the concrete init parent. -/
theorem claim_C10_missing_timestamp_skipped_witness :
    C1V.validate_parent_reference (.obj [("metadata", .obj [("generator", .str "m")])])
      (.content Fix.initParent) Fix.tsTable = (true, []) :=
  ((claim_C10_missing_timestamp_skipped.1
    (.obj [("metadata", .obj [("generator", .str "m")])]) Fix.initParent
    (.obj [("generator", .str "m")]) (.str "1") Fix.tsTable
    (by decide) (by decide) (by decide) (by decide) (by decide))).1

theorem C2V.containerStep_sysNotFound (ids : List Json) (idx : Nat) (st : List Json)
    (c cid v : Json) (hobj : c.isObj = true) (hid : c.get? "id" = some cid)
    (hsys : c.get? "system_id" = some v) (hnotin : ids.contains v = false) :
    C2V.Finding.containerSystemNotFound cid v ∈ (C2V.containerStep ids idx st c).1 := by
  simp only [C2V.containerStep, hobj, Bool.not_true, Bool.false_eq_true, if_false,
    hid, hsys, hnotin, Json.getD, Option.getD_some]
  simp [List.mem_append]

theorem C2V.containerStep_warns_shape (ids : List Json) (idx : Nat) (st : List Json)
    (x : Json) :
    ∀ f ∈ (C2V.containerStep ids idx st x).2.1, f.isSystemNotFound = false := by
  intro f hf
  by_cases hobj : x.isObj
  · simp only [C2V.containerStep, hobj, Bool.not_true, Bool.false_eq_true, if_false] at hf
    rcases List.mem_append.mp hf with h | h
    · repeat' split at h
      all_goals simp_all [C2V.Finding.isSystemNotFound]
    · repeat' split at h
      all_goals simp_all [C2V.Finding.isSystemNotFound]
  · simp only [C2V.containerStep, hobj] at hf
    simp at hf

theorem C3V.componentStep_contNotFound (ids : List Json) (idx : Nat) (st : List Json)
    (c cid v : Json) (hobj : c.isObj = true) (hid : c.get? "id" = some cid)
    (hcont : c.get? "container_id" = some v) (hnotin : ids.contains v = false) :
    C3V.Finding.componentContainerNotFound cid v ∈ (C3V.componentStep ids idx st c).1 := by
  simp only [C3V.componentStep, hobj, Bool.not_true, Bool.false_eq_true, if_false,
    hid, hcont, hnotin, Json.getD, Option.getD_some]
  simp [List.mem_append]

theorem C3V.componentStep_warns_shape (ids : List Json) (idx : Nat) (st : List Json)
    (x : Json) :
    ∀ f ∈ (C3V.componentStep ids idx st x).2.1, f.isContainerNotFound = false := by
  intro f hf
  by_cases hobj : x.isObj
  · simp only [C3V.componentStep, hobj, Bool.not_true, Bool.false_eq_true, if_false] at hf
    rcases List.mem_append.mp hf with h | h
    · repeat' split at h
      all_goals simp_all [C3V.Finding.isContainerNotFound]
    · repeat' split at h
      all_goals simp_all [C3V.Finding.isContainerNotFound]
  · simp only [C3V.componentStep, hobj] at hf
    simp at hf

theorem C1V.systemStep_repoWarn (ir : List Json) (idx : Nat) (st : List Json)
    (s sid repo : Json) (rs : List Json) (hobj : s.isObj = true)
    (hid : s.get? "id" = some sid) (hrepos : s.get? "repositories" = some (.arr rs))
    (hmem : repo ∈ rs) (hnotin : ir.contains repo = false) :
    C1V.Finding.repositoryNotFound sid repo ∈ (C1V.systemStep ir idx st s).2.1 := by
  have hne : rs.isEmpty = false := by
    cases rs with
    | nil => cases hmem
    | cons a t => rfl
  simp only [C1V.systemStep, hobj, Bool.not_true, Bool.false_eq_true, if_false,
    hid, hrepos, hne, Json.getD, Option.getD_some]
  have hnotmem : repo ∉ ir := by
    intro hc
    rw [← jsonContains_iff] at hc
    rw [hc] at hnotin
    cases hnotin
  refine List.mem_append.mpr (Or.inr ?_)
  exact List.mem_filterMap.mpr ⟨repo, hmem, by simp [hnotmem]⟩

theorem C1V.systemStep_errors_shape (ir : List Json) (idx : Nat) (st : List Json)
    (x : Json) :
    ∀ f ∈ (C1V.systemStep ir idx st x).1, f.isRepositoryNotFound = false := by
  intro f hf
  by_cases hobj : x.isObj
  · simp only [C1V.systemStep, hobj, Bool.not_true, Bool.false_eq_true, if_false] at hf
    repeat' split at hf
    all_goals (try simp_all [C1V.Finding.isRepositoryNotFound])
    all_goals aesop
  · simp only [C1V.systemStep, hobj] at hf
    repeat' split at hf
    all_goals simp_all [C1V.Finding.isRepositoryNotFound]

/-- Claim C5, corrected: a container's unresolved `system_id` and a
component's unresolved `container_id` are reported as errors and never as
warnings, but a system's `repositories` entry that is missing from the init
document is reported as a warning, never as an error (only an empty or
non-array `repositories` value is an error). -/
theorem claim_C5_parent_references :
    (∀ (containers : Json) (ids : List Json) (c cid v : Json),
      c ∈ containers.pyElems → c.isObj = true → c.get? "id" = some cid →
      c.get? "system_id" = some v → ids.contains v = false →
      C2V.Finding.containerSystemNotFound cid v ∈
        (C2V.validate_containers containers ids).2.1) ∧
    (∀ (containers : Json) (ids : List Json),
      ((C2V.validate_containers containers ids).2.2).all
        (fun f => !f.isSystemNotFound) = true) ∧
    (∀ (components : Json) (ids : List Json) (c cid v : Json),
      c ∈ components.pyElems → c.isObj = true → c.get? "id" = some cid →
      c.get? "container_id" = some v → ids.contains v = false →
      C3V.Finding.componentContainerNotFound cid v ∈
        (C3V.validate_components components ids).2.1) ∧
    (∀ (components : Json) (ids : List Json),
      ((C3V.validate_components components ids).2.2).all
        (fun f => !f.isContainerNotFound) = true) ∧
    (∀ (systems : Json) (ir : List Json) (s sid repo : Json) (rs : List Json),
      s ∈ systems.pyElems → s.isObj = true → s.get? "id" = some sid →
      s.get? "repositories" = some (.arr rs) → repo ∈ rs → ir.contains repo = false →
      C1V.Finding.repositoryNotFound sid repo ∈ (C1V.validate_systems systems ir).2.2) ∧
    (∀ (systems : Json) (ir : List Json),
      ((C1V.validate_systems systems ir).2.1).all
        (fun f => !f.isRepositoryNotFound) = true) := by
  refine ⟨?_, ?_, ?_, ?_, ?_, ?_⟩
  · intro containers ids c cid v hc hobj hid hsys hnotin
    have htr := truthy_of_elem hc
    simp only [C2V.validate_containers, htr, Bool.not_true, Bool.false_eq_true, if_false]
    exact stLoop_mem_errors (C2V.containerStep ids) c _
      (fun idx st => C2V.containerStep_sysNotFound ids idx st c cid v hobj hid hsys hnotin)
      containers.pyElems hc 0 []
  · intro containers ids
    unfold C2V.validate_containers
    split
    · rfl
    · rw [List.all_eq_true]
      intro f hf
      have h := stLoop_warns_forall (C2V.containerStep ids)
        (fun f => f.isSystemNotFound = false)
        (fun idx st x f hf => C2V.containerStep_warns_shape ids idx st x f hf)
        containers.pyElems 0 [] f hf
      simp [h]
  · intro components ids c cid v hc hobj hid hcont hnotin
    have htr := truthy_of_elem hc
    simp only [C3V.validate_components, htr, Bool.not_true, Bool.false_eq_true, if_false]
    exact stLoop_mem_errors (C3V.componentStep ids) c _
      (fun idx st => C3V.componentStep_contNotFound ids idx st c cid v hobj hid hcont hnotin)
      components.pyElems hc 0 []
  · intro components ids
    unfold C3V.validate_components
    split
    · rfl
    · rw [List.all_eq_true]
      intro f hf
      have h := stLoop_warns_forall (C3V.componentStep ids)
        (fun f => f.isContainerNotFound = false)
        (fun idx st x f hf => C3V.componentStep_warns_shape ids idx st x f hf)
        components.pyElems 0 [] f hf
      simp [h]
  · intro systems ir s sid repo rs hs hobj hid hrepos hmem hnotin
    have htr := truthy_of_elem hs
    simp only [C1V.validate_systems, htr, Bool.not_true, Bool.false_eq_true, if_false]
    exact stLoop_mem_warns (C1V.systemStep ir) s _
      (fun idx st => C1V.systemStep_repoWarn ir idx st s sid repo rs hobj hid hrepos hmem hnotin)
      systems.pyElems hs 0 []
  · intro systems ir
    unfold C1V.validate_systems
    split
    · rfl
    · rw [List.all_eq_true]
      intro f hf
      have h := stLoop_errors_forall (C1V.systemStep ir)
        (fun f => f.isRepositoryNotFound = false)
        (fun idx st x f hf => C1V.systemStep_errors_shape ir idx st x f hf)
        systems.pyElems 0 [] f hf
      simp [h]

/-- Witness for the corrected claim C5 at concrete documents: a container
with a ghost `system_id` yields the referential error, and a system with an
unknown repository yields the repository warning. -/
theorem claim_C5_parent_references_witness :
    C2V.Finding.containerSystemNotFound (.str "a") (.str "ghost") ∈
      (C2V.validate_containers
        (.arr [.obj [("id", .str "a"), ("system_id", .str "ghost")]])
        [.str "s1"]).2.1 ∧
    C1V.Finding.repositoryNotFound (.str "a") (.str "/x") ∈
      (C1V.validate_systems
        (.arr [.obj [("id", .str "a"), ("repositories", .arr [.str "/x"])]])
        [.str "repo-a"]).2.2 :=
  ⟨claim_C5_parent_references.1
      (.arr [.obj [("id", .str "a"), ("system_id", .str "ghost")]]) [.str "s1"]
      (.obj [("id", .str "a"), ("system_id", .str "ghost")]) (.str "a") (.str "ghost")
      (by decide) (by decide) (by decide) (by decide) (by decide),
   claim_C5_parent_references.2.2.2.2.1
      (.arr [.obj [("id", .str "a"), ("repositories", .arr [.str "/x"])]]) [.str "repo-a"]
      (.obj [("id", .str "a"), ("repositories", .arr [.str "/x"])]) (.str "a") (.str "/x")
      [.str "/x"]
      (by decide) (by decide) (by decide) (by decide) (by decide) (by decide)⟩

/-- Counterexample to claim C5 as stated: a system whose `repositories` entry
does not resolve against the init document receives only a warning — the
error stream is empty, so the unresolved reference is not an error. -/
theorem claim_C5_counterexample :
    (C1V.validate_systems
      (.arr [.obj [("id", .str "a"), ("name", .str "a"), ("type", .str "api-service"),
                   ("repositories", .arr [.str "/x"]),
                   ("description", .str "a system description"),
                   ("observations", .arr []), ("relations", .arr [])]])
      [.str "repo-a"]).2.1 = [] ∧
    (C1V.validate_systems
      (.arr [.obj [("id", .str "a"), ("name", .str "a"), ("type", .str "api-service"),
                   ("repositories", .arr [.str "/x"]),
                   ("description", .str "a system description"),
                   ("observations", .arr []), ("relations", .arr [])]])
      [.str "repo-a"]).2.2 =
      [.repositoryNotFound (.str "a") (.str "/x")] := by
  decide

theorem C1V.relationStep_tgtWarn_c1 (ids : List Json) (sys : Json) (idx : Nat)
    (st : List Json × C1V.Graph) (rel sv tv : Json) (hobj : rel.isObj = true)
    (hsrc : rel.get? "source" = some sv) (htgt : rel.get? "target" = some tv)
    (hst : sv.truthy = true) (htt : tv.truthy = true)
    (hnotin : ids.contains tv = false) :
    C1V.Finding.relationTargetNotFound sys tv ∈ (C1V.relationStep ids sys idx st rel).2.1 := by
  simp only [C1V.relationStep, hobj, Bool.not_true, Bool.false_eq_true, if_false,
    hsrc, htgt, truthyOpt, hst, htt, hnotin, Option.getD_some, Bool.and_self]
  simp [List.mem_append]

theorem C1V.relationStep_srcWarn (ids : List Json) (sys : Json) (idx : Nat)
    (st : List Json × C1V.Graph) (rel sv tv : Json) (hobj : rel.isObj = true)
    (hsrc : rel.get? "source" = some sv) (htgt : rel.get? "target" = some tv)
    (hst : sv.truthy = true) (htt : tv.truthy = true)
    (hnotin : ids.contains sv = false) :
    C1V.Finding.relationSourceNotFound sys sv ∈ (C1V.relationStep ids sys idx st rel).2.1 := by
  simp only [C1V.relationStep, hobj, Bool.not_true, Bool.false_eq_true, if_false,
    hsrc, htgt, truthyOpt, hst, htt, hnotin, Option.getD_some, Bool.and_self]
  simp [List.mem_append]

theorem C2V.relationStep_tgtWarn_c2 (ids : List Json) (sys : Json) (idx : Nat)
    (rel tv : Json) (hobj : rel.isObj = true) (htgt : rel.get? "target" = some tv)
    (hnotin : ids.contains tv = false) :
    C2V.Finding.relationTargetNotFound sys tv ∈ (C2V.relationStep ids sys idx rel).2 := by
  simp only [C2V.relationStep, hobj, Bool.not_true, Bool.false_eq_true, if_false,
    htgt, hnotin]
  simp [List.mem_append]

theorem C1V.relationStep_errors_shape (ids : List Json) (sys : Json) (idx : Nat)
    (st : List Json × C1V.Graph) (x : Json) :
    ∀ f ∈ (C1V.relationStep ids sys idx st x).1, f.isCircular = false := by
  intro f hf
  by_cases hobj : x.isObj
  · simp only [C1V.relationStep, hobj, Bool.not_true, Bool.false_eq_true, if_false] at hf
    repeat' split at hf
    all_goals (try simp_all [C1V.Finding.isCircular])
    all_goals aesop
  · simp only [C1V.relationStep, hobj] at hf
    repeat' split at hf
    all_goals simp_all [C1V.Finding.isCircular]

theorem C1V.systemRelations_errors_shape (ids : List Json) (g : C1V.Graph) (s : Json) :
    ∀ f ∈ (C1V.systemRelations ids g s).1, f.isCircular = false := by
  intro f hf
  simp only [C1V.systemRelations] at hf
  split at hf
  · cases hf
  · split at hf
    · simp_all [C1V.Finding.isCircular]
    · exact stLoop_errors_forall _ (fun f => f.isCircular = false)
        (fun idx st x f hf => C1V.relationStep_errors_shape ids _ idx st x f hf) _ _ _ f hf

theorem C1V.systemStep_typeWarn (ir : List Json) (idx : Nat) (st : List Json)
    (s t sid : Json) (hobj : s.isObj = true) (ht : s.get? "type" = some t)
    (he : enumHas C1V.ALLOWED_SYSTEM_TYPES t = false)
    (hsid : s.getD "id" (.str "unknown") = sid) :
    C1V.Finding.unknownSystemType t sid ∈ (C1V.systemStep ir idx st s).2.1 := by
  simp only [C1V.systemStep, hobj, Bool.not_true, Bool.false_eq_true, if_false,
    ht, he, hsid]
  simp [List.mem_append]

theorem C1V.observationStep_sevErr (sys : Json) (idx : Nat) (st : List Json)
    (o sv : Json) (hobj : o.isObj = true) (hsev : o.get? "severity" = some sv)
    (he : enumHas C1V.OBSERVATION_SEVERITIES sv = false) :
    C1V.Finding.invalidSeverity sys sv ∈ (C1V.observationStep sys idx st o).1 := by
  simp only [C1V.observationStep, hobj, Bool.not_true, Bool.false_eq_true, if_false,
    hsev, he]
  simp [List.mem_append]

theorem C1V.observationStep_catWarn (sys : Json) (idx : Nat) (st : List Json)
    (o cv : Json) (hobj : o.isObj = true) (hcat : o.get? "category" = some cv)
    (he : enumHas C1V.OBSERVATION_CATEGORIES cv = false) :
    C1V.Finding.unknownObservationCategory sys cv ∈ (C1V.observationStep sys idx st o).2.1 := by
  simp only [C1V.observationStep, hobj, Bool.not_true, Bool.false_eq_true, if_false,
    hcat, he]
  simp [List.mem_append]

theorem C1V.observationStep_warns_shape (sys : Json) (idx : Nat) (st : List Json)
    (x : Json) :
    ∀ f ∈ (C1V.observationStep sys idx st x).2.1, f.isInvalidSeverity = false := by
  intro f hf
  by_cases hobj : x.isObj
  · simp only [C1V.observationStep, hobj, Bool.not_true, Bool.false_eq_true, if_false] at hf
    repeat' split at hf
    all_goals (try simp_all [C1V.Finding.isInvalidSeverity])
    all_goals aesop
  · simp only [C1V.observationStep, hobj] at hf
    repeat' split at hf
    all_goals simp_all [C1V.Finding.isInvalidSeverity]

theorem C3V.relationStep_couplingErr (ids : List Json) (sys : Json) (idx : Nat)
    (rel cv : Json) (hobj : rel.isObj = true) (hcp : rel.get? "coupling" = some cv)
    (he : enumHas C3V.COUPLING_TYPES cv = false) :
    C3V.Finding.invalidCoupling sys cv ∈ (C3V.relationStep ids sys idx rel).1 := by
  simp only [C3V.relationStep, hobj, Bool.not_true, Bool.false_eq_true, if_false,
    hcp, he]
  simp [List.mem_append]

theorem C3V.relationStep_typeWarn (ids : List Json) (sys : Json) (idx : Nat)
    (rel tv : Json) (hobj : rel.isObj = true) (ht : rel.get? "type" = some tv)
    (he : enumHas C3V.RELATION_TYPES tv = false) :
    C3V.Finding.unknownRelationType sys tv ∈ (C3V.relationStep ids sys idx rel).2.1 := by
  simp only [C3V.relationStep, hobj, Bool.not_true, Bool.false_eq_true, if_false,
    ht, he]
  simp [List.mem_append]

theorem C3V.relationStep_warns_shape (ids : List Json) (sys : Json) (idx : Nat)
    (x : Json) :
    ∀ f ∈ (C3V.relationStep ids sys idx x).2.1, f.isInvalidCoupling = false := by
  intro f hf
  by_cases hobj : x.isObj
  · simp only [C3V.relationStep, hobj, Bool.not_true, Bool.false_eq_true, if_false] at hf
    repeat' split at hf
    all_goals (try simp_all [C3V.Finding.isInvalidCoupling])
    all_goals aesop
  · simp only [C3V.relationStep, hobj] at hf
    repeat' split at hf
    all_goals simp_all [C3V.Finding.isInvalidCoupling]

theorem C1V.observationStep_seen_pres_c1 (sys : Json) (idx : Nat) (st : List Json)
    (x v : Json) (h : st.contains v = true) :
    ((C1V.observationStep sys idx st x).2.2).contains v = true := by
  by_cases hobj : x.isObj
  · simp only [C1V.observationStep, hobj, Bool.not_true, Bool.false_eq_true, if_false]
    rcases hid : x.get? "id" with _ | oid
    · simpa [hid] using h
    · simp only [hid]
      exact addUnique_contains st oid v h
  · simpa [C1V.observationStep, hobj] using h

theorem C1V.observationStep_seen_estab_c1 (sys : Json) (idx : Nat) (st : List Json)
    (o v : Json) (hobj : o.isObj = true) (hid : o.get? "id" = some v) :
    ((C1V.observationStep sys idx st o).2.2).contains v = true := by
  simp only [C1V.observationStep, hobj, Bool.not_true, Bool.false_eq_true, if_false, hid]
  exact addUnique_contains_self st v

theorem C1V.observationStep_dup_c1 (sys : Json) (idx : Nat) (st : List Json)
    (o v : Json) (hobj : o.isObj = true) (hid : o.get? "id" = some v)
    (hP : st.contains v = true) :
    C1V.Finding.duplicateObservationId sys v ∈ (C1V.observationStep sys idx st o).1 := by
  simp only [C1V.observationStep, hobj, Bool.not_true, Bool.false_eq_true, if_false,
    hid, hP]
  simp [List.mem_append]

theorem C2V.observationStep_seen_pres_c2 (sys : Json) (idx : Nat) (st : List Json)
    (x v : Json) (h : st.contains v = true) :
    ((C2V.observationStep sys idx st x).2.2).contains v = true := by
  by_cases hobj : x.isObj
  · simp only [C2V.observationStep, hobj, Bool.not_true, Bool.false_eq_true, if_false]
    rcases hid : x.get? "id" with _ | oid
    · simpa [hid] using h
    · simp only [hid]
      exact addUnique_contains st oid v h
  · simpa [C2V.observationStep, hobj] using h

theorem C2V.observationStep_seen_estab_c2 (sys : Json) (idx : Nat) (st : List Json)
    (o v : Json) (hobj : o.isObj = true) (hid : o.get? "id" = some v) :
    ((C2V.observationStep sys idx st o).2.2).contains v = true := by
  simp only [C2V.observationStep, hobj, Bool.not_true, Bool.false_eq_true, if_false, hid]
  exact addUnique_contains_self st v

theorem C2V.observationStep_dup_c2 (sys : Json) (idx : Nat) (st : List Json)
    (o v : Json) (hobj : o.isObj = true) (hid : o.get? "id" = some v)
    (hP : st.contains v = true) :
    C2V.Finding.duplicateObservationId sys v ∈ (C2V.observationStep sys idx st o).1 := by
  simp only [C2V.observationStep, hobj, Bool.not_true, Bool.false_eq_true, if_false,
    hid, hP]
  simp [List.mem_append]

theorem C3V.observationStep_seen_pres_c3 (sys : Json) (idx : Nat) (st : List Json)
    (x v : Json) (h : st.contains v = true) :
    ((C3V.observationStep sys idx st x).2.2).contains v = true := by
  by_cases hobj : x.isObj
  · simp only [C3V.observationStep, hobj, Bool.not_true, Bool.false_eq_true, if_false]
    rcases hid : x.get? "id" with _ | oid
    · simpa [hid] using h
    · simp only [hid]
      exact addUnique_contains st oid v h
  · simpa [C3V.observationStep, hobj] using h

theorem C3V.observationStep_seen_estab_c3 (sys : Json) (idx : Nat) (st : List Json)
    (o v : Json) (hobj : o.isObj = true) (hid : o.get? "id" = some v) :
    ((C3V.observationStep sys idx st o).2.2).contains v = true := by
  simp only [C3V.observationStep, hobj, Bool.not_true, Bool.false_eq_true, if_false, hid]
  exact addUnique_contains_self st v

theorem C3V.observationStep_dup_c3 (sys : Json) (idx : Nat) (st : List Json)
    (o v : Json) (hobj : o.isObj = true) (hid : o.get? "id" = some v)
    (hP : st.contains v = true) :
    C3V.Finding.duplicateObservationId sys v ∈ (C3V.observationStep sys idx st o).1 := by
  simp only [C3V.observationStep, hobj, Bool.not_true, Bool.false_eq_true, if_false,
    hid, hP]
  simp [List.mem_append]

theorem C1V.systemObservations_dup (s sid : Json) (l1 l2 : List Json) (o1 o2 v : Json)
    (hobj : s.isObj = true) (hsid : s.getD "id" (.str "unknown") = sid)
    (hol : s.get? "observations" = some (.arr (l1 ++ o1 :: l2)))
    (ho1 : o1.isObj = true) (hv1 : o1.get? "id" = some v)
    (ho2mem : o2 ∈ l2) (ho2 : o2.isObj = true) (hv2 : o2.get? "id" = some v) :
    C1V.Finding.duplicateObservationId sid v ∈ (C1V.systemObservations s).1 := by
  have hsid2 : (s.get? "id").getD (.str "unknown") = sid := hsid
  simp only [C1V.systemObservations, hobj, Bool.not_true, Bool.false_eq_true, if_false,
    Json.getD, hol, Option.getD_some, Json.isArr, Bool.not_false, if_true, Json.pyElems, hsid2]
  show C1V.Finding.duplicateObservationId sid v ∈
    (stLoop (C1V.observationStep sid) 0 [] (l1 ++ o1 :: l2)).1
  exact stLoop_mem_errors_after (C1V.observationStep sid)
    (fun st => st.contains v = true) o1 o2 _
    (fun idx st x h => C1V.observationStep_seen_pres_c1 sid idx st x v h)
    (fun idx st => C1V.observationStep_seen_estab_c1 sid idx st o1 v ho1 hv1)
    (fun idx st hP => C1V.observationStep_dup_c1 sid idx st o2 v ho2 hv2 hP)
    l2 ho2mem l1 0 []

theorem C2V.containerObservations_dup (s sid : Json) (l1 l2 : List Json) (o1 o2 v : Json)
    (hobj : s.isObj = true) (hsid : s.getD "id" (.str "unknown") = sid)
    (hol : s.get? "observations" = some (.arr (l1 ++ o1 :: l2)))
    (ho1 : o1.isObj = true) (hv1 : o1.get? "id" = some v)
    (ho2mem : o2 ∈ l2) (ho2 : o2.isObj = true) (hv2 : o2.get? "id" = some v) :
    C2V.Finding.duplicateObservationId sid v ∈ (C2V.containerObservations s).1 := by
  have hsid2 : (s.get? "id").getD (.str "unknown") = sid := hsid
  simp only [C2V.containerObservations, hobj, Bool.not_true, Bool.false_eq_true, if_false,
    Json.getD, hol, Option.getD_some, Json.isArr, Bool.not_false, if_true, Json.pyElems, hsid2]
  show C2V.Finding.duplicateObservationId sid v ∈
    (stLoop (C2V.observationStep sid) 0 [] (l1 ++ o1 :: l2)).1
  exact stLoop_mem_errors_after (C2V.observationStep sid)
    (fun st => st.contains v = true) o1 o2 _
    (fun idx st x h => C2V.observationStep_seen_pres_c2 sid idx st x v h)
    (fun idx st => C2V.observationStep_seen_estab_c2 sid idx st o1 v ho1 hv1)
    (fun idx st hP => C2V.observationStep_dup_c2 sid idx st o2 v ho2 hv2 hP)
    l2 ho2mem l1 0 []

theorem C3V.componentObservations_dup (s sid : Json) (l1 l2 : List Json) (o1 o2 v : Json)
    (hobj : s.isObj = true) (hsid : s.getD "id" (.str "unknown") = sid)
    (hol : s.get? "observations" = some (.arr (l1 ++ o1 :: l2)))
    (ho1 : o1.isObj = true) (hv1 : o1.get? "id" = some v)
    (ho2mem : o2 ∈ l2) (ho2 : o2.isObj = true) (hv2 : o2.get? "id" = some v) :
    C3V.Finding.duplicateObservationId sid v ∈ (C3V.componentObservations s).1 := by
  have hsid2 : (s.get? "id").getD (.str "unknown") = sid := hsid
  simp only [C3V.componentObservations, hobj, Bool.not_true, Bool.false_eq_true, if_false,
    Json.getD, hol, Option.getD_some, Json.isArr, Bool.not_false, if_true, Json.pyElems, hsid2]
  show C3V.Finding.duplicateObservationId sid v ∈
    (stLoop (C3V.observationStep sid) 0 [] (l1 ++ o1 :: l2)).1
  exact stLoop_mem_errors_after (C3V.observationStep sid)
    (fun st => st.contains v = true) o1 o2 _
    (fun idx st x h => C3V.observationStep_seen_pres_c3 sid idx st x v h)
    (fun idx st => C3V.observationStep_seen_estab_c3 sid idx st o1 v ho1 hv1)
    (fun idx st hP => C3V.observationStep_dup_c3 sid idx st o2 v ho2 hv2 hP)
    l2 ho2mem l1 0 []

theorem C1V.systemObservations_mem_err (s sid : Json) (ol : List Json) (o : Json)
    (f : C1V.Finding) (hobj : s.isObj = true)
    (hsid : s.getD "id" (.str "unknown") = sid)
    (hol : s.get? "observations" = some (.arr ol)) (hmem : o ∈ ol)
    (hstep : ∀ idx st, f ∈ (C1V.observationStep sid idx st o).1) :
    f ∈ (C1V.systemObservations s).1 := by
  have hsid2 : (s.get? "id").getD (.str "unknown") = sid := hsid
  simp only [C1V.systemObservations, hobj, Bool.not_true, Bool.false_eq_true, if_false,
    Json.getD, hol, Option.getD_some, Json.isArr, Bool.not_false, if_true, Json.pyElems, hsid2]
  show f ∈ (stLoop (C1V.observationStep sid) 0 [] ol).1
  exact stLoop_mem_errors (C1V.observationStep sid) o f hstep ol hmem 0 []

theorem C1V.systemObservations_mem_warn (s sid : Json) (ol : List Json) (o : Json)
    (f : C1V.Finding) (hobj : s.isObj = true)
    (hsid : s.getD "id" (.str "unknown") = sid)
    (hol : s.get? "observations" = some (.arr ol)) (hmem : o ∈ ol)
    (hstep : ∀ idx st, f ∈ (C1V.observationStep sid idx st o).2.1) :
    f ∈ (C1V.systemObservations s).2 := by
  have hsid2 : (s.get? "id").getD (.str "unknown") = sid := hsid
  simp only [C1V.systemObservations, hobj, Bool.not_true, Bool.false_eq_true, if_false,
    Json.getD, hol, Option.getD_some, Json.isArr, Bool.not_false, if_true, Json.pyElems, hsid2]
  show f ∈ (stLoop (C1V.observationStep sid) 0 [] ol).2.1
  exact stLoop_mem_warns (C1V.observationStep sid) o f hstep ol hmem 0 []

theorem C1V.systemObservations_warns_shape (s : Json) :
    ∀ f ∈ (C1V.systemObservations s).2, f.isInvalidSeverity = false := by
  intro f hf
  simp only [C1V.systemObservations] at hf
  split at hf
  · cases hf
  · split at hf
    · cases hf
    · exact stLoop_warns_forall _ (fun f => f.isInvalidSeverity = false)
        (fun idx st x f hf => C1V.observationStep_warns_shape _ idx st x f hf) _ _ _ f hf

theorem C1V.systemRelations_mem_warn (ids : List Json) (g : C1V.Graph) (s sid : Json)
    (rl : List Json) (rel : Json) (f : C1V.Finding) (hobj : s.isObj = true)
    (hsid : s.getD "id" (.str "unknown") = sid)
    (hrl : s.get? "relations" = some (.arr rl)) (hmem : rel ∈ rl)
    (hstep : ∀ idx st, f ∈ (C1V.relationStep ids sid idx st rel).2.1) :
    f ∈ (C1V.systemRelations ids g s).2.1 := by
  have hsid2 : (s.get? "id").getD (.str "unknown") = sid := hsid
  simp only [C1V.systemRelations, hobj, Bool.not_true, Bool.false_eq_true, if_false,
    Json.getD, hrl, Option.getD_some, Json.isArr, Bool.not_false, if_true, Json.pyElems, hsid2]
  show f ∈ (stLoop (C1V.relationStep ids sid) 0 ([], g) rl).2.1
  exact stLoop_mem_warns (C1V.relationStep ids sid) rel f hstep rl hmem 0 ([], g)

theorem C1V.validate_relations_mem_warn (systems : Json) (s : Json) (f : C1V.Finding)
    (hs : s ∈ systems.pyElems)
    (hstep : ∀ g, f ∈ (C1V.systemRelations (entityIdsOf systems.pyElems) g s).2.1) :
    f ∈ (C1V.validate_relations systems).2.2 := by
  simp only [C1V.validate_relations]
  refine List.mem_append.mpr (Or.inl ?_)
  exact stLoop_mem_warns _ s f (fun idx g => hstep g) systems.pyElems hs 0 _

theorem C2V.containerRelations_mem_warn (ids : List Json) (s sid : Json)
    (rl : List Json) (rel : Json) (f : C2V.Finding) (hobj : s.isObj = true)
    (hsid : s.getD "id" (.str "unknown") = sid)
    (hrl : s.get? "relations" = some (.arr rl)) (hmem : rel ∈ rl)
    (hstep : ∀ idx, f ∈ (C2V.relationStep ids sid idx rel).2) :
    f ∈ (C2V.containerRelations ids s).2 := by
  have hsid2 : (s.get? "id").getD (.str "unknown") = sid := hsid
  simp only [C2V.containerRelations, hobj, Bool.not_true, Bool.false_eq_true, if_false,
    Json.getD, hrl, Option.getD_some, Json.isArr, Bool.not_false, if_true, Json.pyElems, hsid2]
  show f ∈ (stLoop (fun i _ rel =>
    ((C2V.relationStep ids sid i rel).1, (C2V.relationStep ids sid i rel).2, ()))
    0 () rl).2.1
  exact stLoop_mem_warns _ rel f (fun idx st => hstep idx) rl hmem 0 ()

theorem C3V.componentRelations_mem_err (ids : List Json) (s sid : Json)
    (rl : List Json) (rel : Json) (f : C3V.Finding) (hobj : s.isObj = true)
    (hsid : s.getD "id" (.str "unknown") = sid)
    (hrl : s.get? "relations" = some (.arr rl)) (hmem : rel ∈ rl)
    (hstep : ∀ idx, f ∈ (C3V.relationStep ids sid idx rel).1) :
    f ∈ (C3V.componentRelations ids s).1 := by
  have hsid2 : (s.get? "id").getD (.str "unknown") = sid := hsid
  simp only [C3V.componentRelations, hobj, Bool.not_true, Bool.false_eq_true, if_false,
    Json.getD, hrl, Option.getD_some, Json.isArr, Bool.not_false, if_true, Json.pyElems, hsid2]
  show f ∈ (stLoop (fun i (st : Nat × Nat) rel =>
    ((C3V.relationStep ids sid i rel).1, (C3V.relationStep ids sid i rel).2.1,
     st.1 + (C3V.relationStep ids sid i rel).2.2, st.2 + 1)) 0 (0, 0) rl).1
  exact stLoop_mem_errors (fun i (st : Nat × Nat) rel =>
    ((C3V.relationStep ids sid i rel).1, (C3V.relationStep ids sid i rel).2.1,
     st.1 + (C3V.relationStep ids sid i rel).2.2, st.2 + 1)) rel f (fun idx st => hstep idx) rl hmem 0 (0, 0)

theorem C3V.componentRelations_mem_warn (ids : List Json) (s sid : Json)
    (rl : List Json) (rel : Json) (f : C3V.Finding) (hobj : s.isObj = true)
    (hsid : s.getD "id" (.str "unknown") = sid)
    (hrl : s.get? "relations" = some (.arr rl)) (hmem : rel ∈ rl)
    (hstep : ∀ idx, f ∈ (C3V.relationStep ids sid idx rel).2.1) :
    f ∈ (C3V.componentRelations ids s).2.1 := by
  have hsid2 : (s.get? "id").getD (.str "unknown") = sid := hsid
  simp only [C3V.componentRelations, hobj, Bool.not_true, Bool.false_eq_true, if_false,
    Json.getD, hrl, Option.getD_some, Json.isArr, Bool.not_false, if_true, Json.pyElems, hsid2]
  show f ∈ (stLoop (fun i (st : Nat × Nat) rel =>
    ((C3V.relationStep ids sid i rel).1, (C3V.relationStep ids sid i rel).2.1,
     st.1 + (C3V.relationStep ids sid i rel).2.2, st.2 + 1)) 0 (0, 0) rl).2.1
  exact stLoop_mem_warns (fun i (st : Nat × Nat) rel =>
    ((C3V.relationStep ids sid i rel).1, (C3V.relationStep ids sid i rel).2.1,
     st.1 + (C3V.relationStep ids sid i rel).2.2, st.2 + 1)) rel f (fun idx st => hstep idx) rl hmem 0 (0, 0)

theorem C3V.componentRelations_warns_shape (ids : List Json) (s : Json) :
    ∀ f ∈ (C3V.componentRelations ids s).2.1, f.isInvalidCoupling = false := by
  intro f hf
  simp only [C3V.componentRelations] at hf
  split at hf
  · cases hf
  · split at hf
    · cases hf
    · exact stLoop_warns_forall (fun i (st : Nat × Nat) rel =>
        ((C3V.relationStep ids (s.getD "id" (.str "unknown")) i rel).1,
         (C3V.relationStep ids (s.getD "id" (.str "unknown")) i rel).2.1,
         st.1 + (C3V.relationStep ids (s.getD "id" (.str "unknown")) i rel).2.2, st.2 + 1))
        (fun f => f.isInvalidCoupling = false)
        (fun idx st x f hf => C3V.relationStep_warns_shape ids _ idx x f hf) _ _ _ f hf

theorem C3V.relationStep_tgtWarn_c3 (ids : List Json) (sys : Json) (idx : Nat)
    (rel tv : Json) (hobj : rel.isObj = true) (htgt : rel.get? "target" = some tv)
    (hnotin : ids.contains tv = false) :
    C3V.Finding.relationTargetNotFound sys tv ∈ (C3V.relationStep ids sys idx rel).2.1 := by
  simp only [C3V.relationStep, hobj, Bool.not_true, Bool.false_eq_true, if_false,
    htgt, hnotin]
  simp [List.mem_append]

/-- Claim C6, corrected: in the C1, C2 and C3 validators every checked
relation endpoint that does not resolve to an entity id of the current layer
yields a warning, regardless of whether the value looks external (starts
with http/https or contains a hash character) — there is no external-value
exemption in these scripts.  C1 checks source and target when both are
truthy; C2 and C3 check the target whenever the key is present. -/
theorem claim_C6_no_external_exemption :
    (∀ (systems : Json) (s sid : Json) (rl : List Json) (rel sv tv : Json),
      s ∈ systems.pyElems → s.isObj = true →
      s.getD "id" (.str "unknown") = sid →
      s.get? "relations" = some (.arr rl) → rel ∈ rl → rel.isObj = true →
      rel.get? "source" = some sv → rel.get? "target" = some tv →
      sv.truthy = true → tv.truthy = true →
      (entityIdsOf systems.pyElems).contains tv = false →
      C1V.Finding.relationTargetNotFound sid tv ∈ (C1V.validate_relations systems).2.2) ∧
    (∀ (systems : Json) (s sid : Json) (rl : List Json) (rel sv tv : Json),
      s ∈ systems.pyElems → s.isObj = true →
      s.getD "id" (.str "unknown") = sid →
      s.get? "relations" = some (.arr rl) → rel ∈ rl → rel.isObj = true →
      rel.get? "source" = some sv → rel.get? "target" = some tv →
      sv.truthy = true → tv.truthy = true →
      (entityIdsOf systems.pyElems).contains sv = false →
      C1V.Finding.relationSourceNotFound sid sv ∈ (C1V.validate_relations systems).2.2) ∧
    (∀ (containers : Json) (c sid : Json) (rl : List Json) (rel tv : Json),
      c ∈ containers.pyElems → c.isObj = true →
      c.getD "id" (.str "unknown") = sid →
      c.get? "relations" = some (.arr rl) → rel ∈ rl → rel.isObj = true →
      rel.get? "target" = some tv →
      (entityIdsOf containers.pyElems).contains tv = false →
      C2V.Finding.relationTargetNotFound sid tv ∈ (C2V.validate_relations containers).2.2) ∧
    (∀ (components : Json) (c sid : Json) (rl : List Json) (rel tv : Json),
      c ∈ components.pyElems → c.isObj = true →
      c.getD "id" (.str "unknown") = sid →
      c.get? "relations" = some (.arr rl) → rel ∈ rl → rel.isObj = true →
      rel.get? "target" = some tv →
      (entityIdsOf components.pyElems).contains tv = false →
      C3V.Finding.relationTargetNotFound sid tv ∈ (C3V.validate_relations components).2.2) := by
  refine ⟨?_, ?_, ?_, ?_⟩
  · intro systems s sid rl rel sv tv hs hobj hsid hrl hmem hro hsrc htgt hst htt hnotin
    exact C1V.validate_relations_mem_warn systems s _ hs (fun g =>
      C1V.systemRelations_mem_warn _ g s sid rl rel _ hobj hsid hrl hmem (fun idx st =>
        C1V.relationStep_tgtWarn_c1 _ sid idx st rel sv tv hro hsrc htgt hst htt hnotin))
  · intro systems s sid rl rel sv tv hs hobj hsid hrl hmem hro hsrc htgt hst htt hnotin
    exact C1V.validate_relations_mem_warn systems s _ hs (fun g =>
      C1V.systemRelations_mem_warn _ g s sid rl rel _ hobj hsid hrl hmem (fun idx st =>
        C1V.relationStep_srcWarn _ sid idx st rel sv tv hro hsrc htgt hst htt hnotin))
  · intro containers c sid rl rel tv hc hobj hsid hrl hmem hro htgt hnotin
    simp only [C2V.validate_relations]
    exact eachLoop_mem_warns _ c _
      (C2V.containerRelations_mem_warn _ c sid rl rel _ hobj hsid hrl hmem (fun idx =>
        C2V.relationStep_tgtWarn_c2 _ sid idx rel tv hro htgt hnotin))
      containers.pyElems hc
  · intro components c sid rl rel tv hc hobj hsid hrl hmem hro htgt hnotin
    simp only [C3V.validate_relations]
    refine List.mem_append.mpr (Or.inl ?_)
    exact stLoop_mem_warns (fun _ (st : Nat × Nat) x =>
      ((C3V.componentRelations (entityIdsOf components.pyElems) x).1,
       (C3V.componentRelations (entityIdsOf components.pyElems) x).2.1,
       st.1 + (C3V.componentRelations (entityIdsOf components.pyElems) x).2.2.1,
       st.2 + (C3V.componentRelations (entityIdsOf components.pyElems) x).2.2.2)) c _
      (fun idx st => C3V.componentRelations_mem_warn _ c sid rl rel _ hobj hsid hrl hmem
        (fun i => C3V.relationStep_tgtWarn_c3 _ sid i rel tv hro htgt hnotin))
      components.pyElems hc 0 (0, 0)

/-- Witness for the corrected claim C6 at a concrete document: an
external-looking unresolved target still yields the warning. -/
theorem claim_C6_no_external_exemption_witness :
    C1V.Finding.relationTargetNotFound (.str "a") (.str "https://ext.example.com") ∈
      (C1V.validate_relations
        (.arr [.obj [("id", .str "a"),
                     ("relations", .arr [.obj [("id", .str "r1"), ("source", .str "a"),
                                               ("target", .str "https://ext.example.com"),
                                               ("type", .str "uses"),
                                               ("description", .str "a relation text")]])]])).2.2 ∧
    C3V.Finding.relationTargetNotFound (.str "a") (.str "https://ext.example.com") ∈
      (C3V.validate_relations
        (.arr [.obj [("id", .str "a"),
                     ("relations",
                      .arr [.obj [("target", .str "https://ext.example.com")]])]])).2.2 :=
  ⟨claim_C6_no_external_exemption.1
    (.arr [.obj [("id", .str "a"),
                 ("relations", .arr [.obj [("id", .str "r1"), ("source", .str "a"),
                                           ("target", .str "https://ext.example.com"),
                                           ("type", .str "uses"),
                                           ("description", .str "a relation text")]])]])
    (.obj [("id", .str "a"),
           ("relations", .arr [.obj [("id", .str "r1"), ("source", .str "a"),
                                     ("target", .str "https://ext.example.com"),
                                     ("type", .str "uses"),
                                     ("description", .str "a relation text")]])])
    (.str "a")
    [.obj [("id", .str "r1"), ("source", .str "a"),
           ("target", .str "https://ext.example.com"), ("type", .str "uses"),
           ("description", .str "a relation text")]]
    (.obj [("id", .str "r1"), ("source", .str "a"),
           ("target", .str "https://ext.example.com"), ("type", .str "uses"),
           ("description", .str "a relation text")])
    (.str "a") (.str "https://ext.example.com")
    (by decide) (by decide) (by decide) (by decide) (by decide) (by decide)
    (by decide) (by decide) (by decide) (by decide) (by decide),
   claim_C6_no_external_exemption.2.2.2
    (.arr [.obj [("id", .str "a"),
                 ("relations", .arr [.obj [("target", .str "https://ext.example.com")]])]])
    (.obj [("id", .str "a"),
           ("relations", .arr [.obj [("target", .str "https://ext.example.com")]])])
    (.str "a")
    [.obj [("target", .str "https://ext.example.com")]]
    (.obj [("target", .str "https://ext.example.com")])
    (.str "https://ext.example.com")
    (by decide) (by decide) (by decide) (by decide) (by decide) (by decide)
    (by decide) (by decide)⟩

/-- Counterexample to claim C6 as stated: the referential check of the C1
validator emits a warning for an unresolved relation target that looks
external (an absolute URL), instead of accepting it without a finding. -/
theorem claim_C6_counterexample :
    (C1V.validate_relations
      (.arr [.obj [("id", .str "a"),
                   ("relations", .arr [.obj [("id", .str "r1"), ("source", .str "a"),
                                             ("target", .str "https://ext.example.com"),
                                             ("type", .str "uses"),
                                             ("description", .str "a relation text")]])]])).2.2 =
      [.relationTargetNotFound (.str "a") (.str "https://ext.example.com")] := by
  decide

/-- Claim C7, corrected: only the C1 validator examines the relation graph
for cycles.  For three C1 systems related a→b→c→a the run reports exactly
one cycle warning with path [a, b, c, a] and exits 1; cycle findings are
only ever placed on the warning stream (the error stream of the C1 relation
check never carries one), and every cycle path the DFS driver collects is
reported as a warning.  The C2 and C3 validators perform no cycle detection
at all — the counterexample exhibits a cyclic C2 document passing with exit
code 0 and zero findings. -/
theorem claim_C7_cycles :
    (C1V.main (.parsed Fix.scenarioC) (.content Fix.initParent) Fix.tsTable =
      (1, [], [.circularDependency [.str "a", .str "b", .str "c", .str "a"]])) ∧
    (∀ systems : Json,
      ((C1V.validate_relations systems).2.1).all (fun f => !f.isCircular) = true) ∧
    (∀ systems : Json,
      (C1V.validate_relations systems).2.2 =
        (C1V.relationsSystemsLoop (entityIdsOf systems.pyElems)
          ((entityIdsOf systems.pyElems).map fun i => (i, []))
          systems.pyElems).2.1 ++
        (C1V.cycleRoots
          (C1V.relationsSystemsLoop (entityIdsOf systems.pyElems)
            ((entityIdsOf systems.pyElems).map fun i => (i, []))
            systems.pyElems).2.2
          ((C1V.relationsSystemsLoop (entityIdsOf systems.pyElems)
            ((entityIdsOf systems.pyElems).map fun i => (i, []))
            systems.pyElems).2.2.map (·.1))
          []).map C1V.Finding.circularDependency) := by
  refine ⟨by decide, ?_, fun systems => rfl⟩
  intro systems
  rw [List.all_eq_true]
  intro f hf
  have h := stLoop_errors_forall (fun _ acc s => C1V.systemRelations
      (entityIdsOf systems.pyElems) acc s)
    (fun f => f.isCircular = false)
    (fun idx st x f hf => C1V.systemRelations_errors_shape _ _ x f hf)
    systems.pyElems 0 ((entityIdsOf systems.pyElems).map fun i => (i, [])) f hf
  simp [h]

/-- Counterexample to claim C7 as stated: a C2 document whose two containers
relate in a cycle a→b→a passes validation with exit code 0 and no findings —
the C2 validator never examines the relation graph for cycles. -/
theorem claim_C7_counterexample :
    C2V.main (.parsed Fix.c2Cycle) (.content Fix.c1Parent) Fix.tsTable = (0, [], []) := by
  decide

/-- Claim C8, corrected: unknown entity types, observation categories and
relation types are warnings, but an observation severity outside
{info, warning, critical} and a C3 coupling outside {loose, tight} are
errors, never warnings. -/
theorem claim_C8_enum_severity :
    (∀ (systems : Json) (ir : List Json) (s t sid : Json),
      s ∈ systems.pyElems → s.isObj = true → s.get? "type" = some t →
      enumHas C1V.ALLOWED_SYSTEM_TYPES t = false →
      s.getD "id" (.str "unknown") = sid →
      C1V.Finding.unknownSystemType t sid ∈ (C1V.validate_systems systems ir).2.2) ∧
    (∀ (systems : Json) (s sid : Json) (ol : List Json) (o cv : Json),
      s ∈ systems.pyElems → s.isObj = true → s.getD "id" (.str "unknown") = sid →
      s.get? "observations" = some (.arr ol) → o ∈ ol → o.isObj = true →
      o.get? "category" = some cv → enumHas C1V.OBSERVATION_CATEGORIES cv = false →
      C1V.Finding.unknownObservationCategory sid cv ∈
        (C1V.validate_observations systems).2.2) ∧
    (∀ (systems : Json) (s sid : Json) (ol : List Json) (o sv : Json),
      s ∈ systems.pyElems → s.isObj = true → s.getD "id" (.str "unknown") = sid →
      s.get? "observations" = some (.arr ol) → o ∈ ol → o.isObj = true →
      o.get? "severity" = some sv → enumHas C1V.OBSERVATION_SEVERITIES sv = false →
      C1V.Finding.invalidSeverity sid sv ∈ (C1V.validate_observations systems).2.1) ∧
    (∀ systems : Json,
      ((C1V.validate_observations systems).2.2).all
        (fun f => !f.isInvalidSeverity) = true) ∧
    (∀ (components : Json) (c sid : Json) (rl : List Json) (rel cv : Json),
      c ∈ components.pyElems → c.isObj = true → c.getD "id" (.str "unknown") = sid →
      c.get? "relations" = some (.arr rl) → rel ∈ rl → rel.isObj = true →
      rel.get? "coupling" = some cv → enumHas C3V.COUPLING_TYPES cv = false →
      C3V.Finding.invalidCoupling sid cv ∈ (C3V.validate_relations components).2.1) ∧
    (∀ components : Json,
      ((C3V.validate_relations components).2.2).all
        (fun f => !f.isInvalidCoupling) = true) ∧
    (∀ (components : Json) (c sid : Json) (rl : List Json) (rel tv : Json),
      c ∈ components.pyElems → c.isObj = true → c.getD "id" (.str "unknown") = sid →
      c.get? "relations" = some (.arr rl) → rel ∈ rl → rel.isObj = true →
      rel.get? "type" = some tv → enumHas C3V.RELATION_TYPES tv = false →
      C3V.Finding.unknownRelationType sid tv ∈ (C3V.validate_relations components).2.2) := by
  refine ⟨?_, ?_, ?_, ?_, ?_, ?_, ?_⟩
  · intro systems ir s t sid hs hobj ht he hsid
    have htr := truthy_of_elem hs
    simp only [C1V.validate_systems, htr, Bool.not_true, Bool.false_eq_true, if_false]
    exact stLoop_mem_warns (C1V.systemStep ir) s _
      (fun idx st => C1V.systemStep_typeWarn ir idx st s t sid hobj ht he hsid)
      systems.pyElems hs 0 []
  · intro systems s sid ol o cv hs hobj hsid hol hmem ho hcat he
    simp only [C1V.validate_observations]
    exact eachLoop_mem_warns _ s _
      (C1V.systemObservations_mem_warn s sid ol o _ hobj hsid hol hmem (fun idx st =>
        C1V.observationStep_catWarn sid idx st o cv ho hcat he))
      systems.pyElems hs
  · intro systems s sid ol o sv hs hobj hsid hol hmem ho hsev he
    simp only [C1V.validate_observations]
    exact eachLoop_mem_errors _ s _
      (C1V.systemObservations_mem_err s sid ol o _ hobj hsid hol hmem (fun idx st =>
        C1V.observationStep_sevErr sid idx st o sv ho hsev he))
      systems.pyElems hs
  · intro systems
    rw [List.all_eq_true]
    intro f hf
    have h := eachLoop_warns_forall C1V.systemObservations
      (fun f => f.isInvalidSeverity = false)
      (fun x f hf => C1V.systemObservations_warns_shape x f hf)
      systems.pyElems f hf
    simp [h]
  · intro components c sid rl rel cv hc hobj hsid hrl hmem hro hcp he
    simp only [C3V.validate_relations]
    refine stLoop_mem_errors (fun _ (st : Nat × Nat) x =>
      ((C3V.componentRelations (entityIdsOf components.pyElems) x).1,
       (C3V.componentRelations (entityIdsOf components.pyElems) x).2.1,
       st.1 + (C3V.componentRelations (entityIdsOf components.pyElems) x).2.2.1,
       st.2 + (C3V.componentRelations (entityIdsOf components.pyElems) x).2.2.2)) c _
      (fun idx st => C3V.componentRelations_mem_err _ c sid rl rel _ hobj hsid hrl hmem
        (fun i => C3V.relationStep_couplingErr _ sid i rel cv hro hcp he))
      components.pyElems hc 0 (0, 0)
  · intro components
    rw [List.all_eq_true]
    intro f hf
    simp only [C3V.validate_relations] at hf
    rcases List.mem_append.mp hf with h | h
    · have hq := stLoop_warns_forall (fun _ (st : Nat × Nat) x =>
        ((C3V.componentRelations (entityIdsOf components.pyElems) x).1,
         (C3V.componentRelations (entityIdsOf components.pyElems) x).2.1,
         st.1 + (C3V.componentRelations (entityIdsOf components.pyElems) x).2.2.1,
         st.2 + (C3V.componentRelations (entityIdsOf components.pyElems) x).2.2.2))
        (fun f => f.isInvalidCoupling = false)
        (fun idx st x f hf => C3V.componentRelations_warns_shape _ x f hf)
        components.pyElems 0 (0, 0) f h
      simp [hq]
    · revert h
      split
      all_goals intro h
      all_goals simp_all [C3V.Finding.isInvalidCoupling]
  · intro components c sid rl rel tv hc hobj hsid hrl hmem hro ht he
    simp only [C3V.validate_relations]
    refine List.mem_append.mpr (Or.inl ?_)
    exact stLoop_mem_warns (fun _ (st : Nat × Nat) x =>
      ((C3V.componentRelations (entityIdsOf components.pyElems) x).1,
       (C3V.componentRelations (entityIdsOf components.pyElems) x).2.1,
       st.1 + (C3V.componentRelations (entityIdsOf components.pyElems) x).2.2.1,
       st.2 + (C3V.componentRelations (entityIdsOf components.pyElems) x).2.2.2)) c _
      (fun idx st => C3V.componentRelations_mem_warn _ c sid rl rel _ hobj hsid hrl hmem
        (fun i => C3V.relationStep_typeWarn _ sid i rel tv hro ht he))
      components.pyElems hc 0 (0, 0)

/-- Witness for the corrected claim C8 at concrete documents: an unknown
system type yields a warning, an out-of-enum severity yields an error, and
an out-of-enum coupling yields an error. -/
theorem claim_C8_enum_severity_witness :
    C1V.Finding.unknownSystemType (.str "quantum") (.str "a") ∈
      (C1V.validate_systems
        (.arr [.obj [("id", .str "a"), ("type", .str "quantum")]]) []).2.2 ∧
    C1V.Finding.invalidSeverity (.str "a") (.str "bogus") ∈
      (C1V.validate_observations
        (.arr [.obj [("id", .str "a"),
                     ("observations", .arr [.obj [("id", .str "o1"),
                                                  ("severity", .str "bogus")]])]])).2.1 ∧
    C3V.Finding.invalidCoupling (.str "a") (.str "medium") ∈
      (C3V.validate_relations
        (.arr [.obj [("id", .str "a"),
                     ("relations", .arr [.obj [("target", .str "a"),
                                               ("coupling", .str "medium")]])]])).2.1 :=
  ⟨claim_C8_enum_severity.1
      (.arr [.obj [("id", .str "a"), ("type", .str "quantum")]]) []
      (.obj [("id", .str "a"), ("type", .str "quantum")]) (.str "quantum") (.str "a")
      (by decide) (by decide) (by decide) (by decide) (by decide),
   claim_C8_enum_severity.2.2.1
      (.arr [.obj [("id", .str "a"),
                   ("observations", .arr [.obj [("id", .str "o1"),
                                                ("severity", .str "bogus")]])]])
      (.obj [("id", .str "a"),
             ("observations", .arr [.obj [("id", .str "o1"), ("severity", .str "bogus")]])])
      (.str "a") [.obj [("id", .str "o1"), ("severity", .str "bogus")]]
      (.obj [("id", .str "o1"), ("severity", .str "bogus")]) (.str "bogus")
      (by decide) (by decide) (by decide) (by decide) (by decide) (by decide)
      (by decide) (by decide),
   claim_C8_enum_severity.2.2.2.2.1
      (.arr [.obj [("id", .str "a"),
                   ("relations", .arr [.obj [("target", .str "a"),
                                             ("coupling", .str "medium")]])]])
      (.obj [("id", .str "a"),
             ("relations", .arr [.obj [("target", .str "a"), ("coupling", .str "medium")]])])
      (.str "a") [.obj [("target", .str "a"), ("coupling", .str "medium")]]
      (.obj [("target", .str "a"), ("coupling", .str "medium")]) (.str "medium")
      (by decide) (by decide) (by decide) (by decide) (by decide) (by decide)
      (by decide) (by decide)⟩

/-- Counterexample to claim C8 as stated: an observation severity outside the
closed enum is reported as an error by the C1 validator, not as a warning —
the error stream carries the finding and the warning stream is empty. -/
theorem claim_C8_counterexample :
    (C1V.validate_observations
      (.arr [.obj [("id", .str "a"),
                   ("observations",
                    .arr [.obj [("id", .str "o1"), ("category", .str "technical"),
                                ("description", .str "an observation text"),
                                ("severity", .str "bogus")]])]])).2.1 =
      [.invalidSeverity (.str "a") (.str "bogus")] ∧
    (C1V.validate_observations
      (.arr [.obj [("id", .str "a"),
                   ("observations",
                    .arr [.obj [("id", .str "o1"), ("category", .str "technical"),
                                ("description", .str "an observation text"),
                                ("severity", .str "bogus")]])]])).2.2 = [] := by
  decide

/-- Claim C9, corrected: duplicate observation ids within one entity are
reported as errors by all three layer validators — the C2 and C3 validators
enforce observation-id uniqueness exactly as the C1 validator does. -/
theorem claim_C9_duplicate_observation_ids :
    (∀ (systems : Json) (s sid : Json) (l1 l2 : List Json) (o1 o2 v : Json),
      s ∈ systems.pyElems → s.isObj = true → s.getD "id" (.str "unknown") = sid →
      s.get? "observations" = some (.arr (l1 ++ o1 :: l2)) →
      o1.isObj = true → o1.get? "id" = some v →
      o2 ∈ l2 → o2.isObj = true → o2.get? "id" = some v →
      C1V.Finding.duplicateObservationId sid v ∈ (C1V.validate_observations systems).2.1) ∧
    (∀ (containers : Json) (s sid : Json) (l1 l2 : List Json) (o1 o2 v : Json),
      s ∈ containers.pyElems → s.isObj = true → s.getD "id" (.str "unknown") = sid →
      s.get? "observations" = some (.arr (l1 ++ o1 :: l2)) →
      o1.isObj = true → o1.get? "id" = some v →
      o2 ∈ l2 → o2.isObj = true → o2.get? "id" = some v →
      C2V.Finding.duplicateObservationId sid v ∈ (C2V.validate_observations containers).2.1) ∧
    (∀ (components : Json) (s sid : Json) (l1 l2 : List Json) (o1 o2 v : Json),
      s ∈ components.pyElems → s.isObj = true → s.getD "id" (.str "unknown") = sid →
      s.get? "observations" = some (.arr (l1 ++ o1 :: l2)) →
      o1.isObj = true → o1.get? "id" = some v →
      o2 ∈ l2 → o2.isObj = true → o2.get? "id" = some v →
      C3V.Finding.duplicateObservationId sid v ∈ (C3V.validate_observations components).2.1) := by
  refine ⟨?_, ?_, ?_⟩
  · intro systems s sid l1 l2 o1 o2 v hs hobj hsid hol ho1 hv1 ho2m ho2 hv2
    simp only [C1V.validate_observations]
    exact eachLoop_mem_errors _ s _
      (C1V.systemObservations_dup s sid l1 l2 o1 o2 v hobj hsid hol ho1 hv1 ho2m ho2 hv2)
      systems.pyElems hs
  · intro containers s sid l1 l2 o1 o2 v hs hobj hsid hol ho1 hv1 ho2m ho2 hv2
    simp only [C2V.validate_observations]
    exact eachLoop_mem_errors _ s _
      (C2V.containerObservations_dup s sid l1 l2 o1 o2 v hobj hsid hol ho1 hv1 ho2m ho2 hv2)
      containers.pyElems hs
  · intro components s sid l1 l2 o1 o2 v hs hobj hsid hol ho1 hv1 ho2m ho2 hv2
    simp only [C3V.validate_observations]
    exact eachLoop_mem_errors _ s _
      (C3V.componentObservations_dup s sid l1 l2 o1 o2 v hobj hsid hol ho1 hv1 ho2m ho2 hv2)
      components.pyElems hs

/-- Witness for the corrected claim C9 at a concrete C2 document with two
observations sharing an id. -/
theorem claim_C9_duplicate_observation_ids_witness :
    C2V.Finding.duplicateObservationId (.str "a") (.str "o1") ∈
      (C2V.validate_observations
        (.arr [.obj [("id", .str "a"),
                     ("observations", .arr [.obj [("id", .str "o1")],
                                            .obj [("id", .str "o1")]])]])).2.1 :=
  claim_C9_duplicate_observation_ids.2.1
    (.arr [.obj [("id", .str "a"),
                 ("observations", .arr [.obj [("id", .str "o1")],
                                        .obj [("id", .str "o1")]])]])
    (.obj [("id", .str "a"),
           ("observations", .arr [.obj [("id", .str "o1")], .obj [("id", .str "o1")]])])
    (.str "a") [] [.obj [("id", .str "o1")]]
    (.obj [("id", .str "o1")]) (.obj [("id", .str "o1")]) (.str "o1")
    (by decide) (by decide) (by decide) (by decide) (by decide) (by decide)
    (by decide) (by decide) (by decide)

/-- Counterexample to claim C9 as stated: the C2 validator does report a
duplicated observation id — with an error — rather than emitting no finding. -/
theorem claim_C9_counterexample :
    (C2V.validate_observations
      (.arr [.obj [("id", .str "a"),
                   ("observations",
                    .arr [.obj [("id", .str "o1"), ("category", .str "technical"),
                                ("description", .str "an observation text")],
                          .obj [("id", .str "o1"), ("category", .str "technical"),
                                ("description", .str "another observation")]])]])).2.1 =
      [.duplicateObservationId (.str "a") (.str "o1")] := by
  decide
